import Mathlib

/-!
A verification development for the synthetic-simulation core of the `ponder`
repository: the 2D world model with collision geometry (`world_model.py`),
the task-success evaluator (`task_evaluator.py`), the action renderer
(`action_parser.py`) and the episode loop of the orchestrator
(`simulator.py`).

Python floats are modelled as real numbers; numeric literals parsed out of
action/goal text are modelled as rationals (the texts only carry decimal
literals) and cast into `ℝ` where geometry needs them.  The handful of
regular expressions the source applies are embedded as dedicated scanner
functions over `List Char` reproducing `re.search` semantics (leftmost
match, greedy/lazy repetition as in the original patterns).
-/

/-! ## Character and string utilities -/

/-- ASCII lowercasing of a character list (`str.lower()`; all source strings
are ASCII apart from `'°'`, which lowercases to itself). -/
def lowerL (l : List Char) : List Char := l.map Char.toLower

/-- `\w` character class (`[a-zA-Z0-9_]` for the ASCII texts in play). -/
def isWordCh (c : Char) : Bool := c.isAlpha || c.isDigit || c == '_'

/-- `\s` character class. -/
def isSpaceCh (c : Char) : Bool := c == ' ' || c == '\t' || c == '\n' || c == '\r'

/-- Does `hay` start with `pat`? -/
def startsWithL : List Char → List Char → Bool
  | _, [] => true
  | [], _ :: _ => false
  | c :: cs, p :: ps => c == p && startsWithL cs ps

/-- Substring test (`pat in hay` in Python). -/
def containsL : List Char → List Char → Bool
  | [], pat => startsWithL [] pat
  | c :: t, pat => startsWithL (c :: t) pat || containsL t pat

/-- Substring test on strings, `sub in s`. -/
def containsStr (s sub : String) : Bool := containsL s.data sub.data

/-- Python `str.lower()`. -/
def lowerStr (s : String) : String := ⟨lowerL s.data⟩

/-- Python `str.replace(old, new)`, fuelled so the recursion is structural
(the kernel cannot reduce well-founded recursion): each step consumes at
least one character, so `fuel = hay.length` suffices and the `0` case is
unreachable. -/
def replaceGo (old new : List Char) : ℕ → List Char → List Char
  | _, [] => []
  | 0, hay => hay
  | fuel + 1, c :: t =>
    if startsWithL (c :: t) old && !old.isEmpty then
      new ++ replaceGo old new fuel (t.drop (old.length - 1))
    else
      c :: replaceGo old new fuel t

/-- Python `str.replace(old, new)` for nonempty `old`: replace all
non-overlapping occurrences, left to right. -/
def replaceL (hay old new : List Char) : List Char :=
  replaceGo old new hay.length hay

/-- Python `str.replace` on strings. -/
def replaceStr (s old new : String) : String := ⟨replaceL s.data old.data new.data⟩

/-- Python `str.strip()` (whitespace from both ends). -/
def stripL (l : List Char) : List Char :=
  ((l.dropWhile isSpaceCh).reverse.dropWhile isSpaceCh).reverse

def stripStr (s : String) : String := ⟨stripL s.data⟩

theorem dropWhile_length_le (p : Char → Bool) (l : List Char) :
    (l.dropWhile p).length ≤ l.length := by
  induction l with
  | nil => simp [List.dropWhile]
  | cons c t ih =>
    simp only [List.dropWhile]
    cases p c
    · simp
    · simp
      omega

/-- Python `str.split()` (split on whitespace runs, dropping empties); the
accumulator holds the current word reversed. -/
def splitWSAux (acc : List Char) : List Char → List (List Char)
  | [] => if acc.isEmpty then [] else [acc.reverse]
  | c :: t =>
    if isSpaceCh c then
      if acc.isEmpty then splitWSAux [] t else acc.reverse :: splitWSAux [] t
    else splitWSAux (c :: acc) t

/-- Python `str.split()`. -/
def splitWS (l : List Char) : List (List Char) := splitWSAux [] l

/-- Last whitespace-separated token of a string (`s.split()[-1]` after a
nonemptiness check), or `[]` when there is none. -/
def lastWordL (l : List Char) : List Char :=
  match (splitWS l).getLast? with
  | some w => w
  | none => []

/-- Digit run to natural number. -/
def digitsToNat (ds : List Char) : ℕ :=
  ds.foldl (fun a c => 10 * a + (c.toNat - 48)) 0

/-- `float(intDs ++ "." ++ fracDs)` as an exact rational (the
fraction-free case is split off so that concrete values reduce inside the
kernel without rational normalization). -/
def numTokToRat (intDs fracDs : List Char) : ℚ :=
  match fracDs with
  | [] => (digitsToNat intDs : ℚ)
  | _ => (digitsToNat intDs : ℚ) + (digitsToNat fracDs : ℚ) / 10 ^ fracDs.length

/-! ## Scanners for the regular expressions used by the source

Each function reproduces `re.search` of one concrete pattern: a positional
matcher (`try…`) attempts the pattern at the head of the list, and a scanner
walks every start position from the left (as the regex engine does). -/

/-- Attempt a literal at the head; return the remainder on success. -/
def matchLit (lit l : List Char) : Option (List Char) :=
  if startsWithL l lit then some (l.drop lit.length) else none

/-- `\s+` at the head (greedy, must be nonempty). -/
def matchWSPlus (l : List Char) : Option (List Char) :=
  if (l.takeWhile isSpaceCh).isEmpty then none else some (l.dropWhile isSpaceCh)

/-- `(\w+)` at the head (greedy maximal run, must be nonempty). -/
def matchWord (l : List Char) : Option (List Char × List Char) :=
  let w := l.takeWhile isWordCh
  if w.isEmpty then none else some (w, l.dropWhile isWordCh)

/-- `(\d+\.?\d*)` at the head; returns the parsed value and the remainder.
Greedy digits, optional dot, greedy fraction digits — for the source's
patterns (always followed by `\s*` and a letter) the greedy parse coincides
with full backtracking semantics, since shortening any of the sub-matches
leaves a digit, a dot or a whitespace where a letter is required. -/
def matchNumTok (l : List Char) : Option (ℚ × List Char) :=
  let ds := l.takeWhile Char.isDigit
  if ds.isEmpty then none
  else
    match l.dropWhile Char.isDigit with
    | '.' :: r2 =>
      some (numTokToRat ds (r2.takeWhile Char.isDigit), r2.dropWhile Char.isDigit)
    | r1 => some (numTokToRat ds [], r1)

/-- Generic left-to-right scan of a positional matcher (`re.search`). -/
def scanOpt {α : Type} (f : List Char → Option α) : List Char → Option α
  | [] => f []
  | c :: t =>
    match f (c :: t) with
    | some a => some a
    | none => scanOpt f t

/-- `(\d+)` positional: maximal digit run at the head. -/
def tryNat (l : List Char) : Option ℕ :=
  let ds := l.takeWhile Char.isDigit
  if ds.isEmpty then none else some (digitsToNat ds)

/-- `re.search(r'(\d+)', s)`. -/
def searchNat (s : String) : Option ℕ := scanOpt tryNat s.data

/-- `(\d+)°` positional. -/
def tryNatDeg (l : List Char) : Option ℕ :=
  let ds := l.takeWhile Char.isDigit
  if ds.isEmpty then none
  else
    match l.dropWhile Char.isDigit with
    | '°' :: _ => some (digitsToNat ds)
    | _ => none

/-- `re.search(r'(\d+)°', s)`. -/
def searchNatDeg (s : String) : Option ℕ := scanOpt tryNatDeg s.data

/-- `(\d+\.?\d*)\s*m` positional. -/
def tryNumM (l : List Char) : Option ℚ :=
  match matchNumTok l with
  | none => none
  | some (q, rest) =>
    if startsWithL (rest.dropWhile isSpaceCh) ['m'] then some q else none

/-- `re.search(r'(\d+\.?\d*)\s*m', s)`. -/
def searchNumM (s : String) : Option ℚ := scanOpt tryNumM s.data

/-- `moved (\d+\.?\d*)\s*m` positional. -/
def tryMovedNumM (l : List Char) : Option ℚ :=
  match matchLit "moved ".data l with
  | some r => tryNumM r
  | none => none

/-- `re.search(r'moved (\d+\.?\d*)\s*m', s)`. -/
def searchMovedNumM (s : String) : Option ℚ := scanOpt tryMovedNumM s.data

/-- `adjusted (\d+)°` positional. -/
def tryAdjustedDeg (l : List Char) : Option ℕ :=
  match matchLit "adjusted ".data l with
  | some r => tryNatDeg r
  | none => none

/-- `re.search(r'adjusted (\d+)°', s)`. -/
def searchAdjustedDeg (s : String) : Option ℕ := scanOpt tryAdjustedDeg s.data

/-- `within\s+(\d+\.?\d*)\s*m` positional. -/
def tryWithinM (l : List Char) : Option ℚ :=
  match matchLit "within".data l with
  | some r =>
    match matchWSPlus r with
    | some r2 => tryNumM r2
    | none => none
  | none => none

/-- `re.search(r'within\s+(\d+\.?\d*)\s*m', s)`. -/
def searchWithinM (s : String) : Option ℚ := scanOpt tryWithinM s.data

/-- `(\d+\.?\d*)\s*meter` positional. -/
def tryMeter (l : List Char) : Option ℚ :=
  match matchNumTok l with
  | none => none
  | some (q, rest) =>
    if startsWithL (rest.dropWhile isSpaceCh) "meter".data then some q else none

/-- `re.search(r'(\d+\.?\d*)\s*meter', s)`. -/
def searchMeter (s : String) : Option ℚ := scanOpt tryMeter s.data

/-- The alternatives of `find.*?(phone|keys|cup|bottle|bag|book|box)`. -/
def findAlternatives : List (List Char) :=
  ["phone", "keys", "cup", "bottle", "bag", "book", "box"].map String.data

/-- First alternative (in pattern order) matching at the head. -/
def tryAlts (alts : List (List Char)) (l : List Char) : Option (List Char) :=
  match alts with
  | [] => none
  | a :: rest => if startsWithL l a then some a else tryAlts rest l

/-- Lazy `.*?(alt₁|…)`: earliest position after the current one at which some
alternative matches; `.` does not cross a newline. -/
def lazyScanAlts (alts : List (List Char)) : List Char → Option (List Char)
  | [] => none
  | c :: t =>
    match tryAlts alts (c :: t) with
    | some a => some a
    | none => if c == '\n' then none else lazyScanAlts alts t

/-- `find.*?(phone|keys|cup|bottle|bag|book|box)` positional. -/
def tryFindObj (l : List Char) : Option (List Char) :=
  match matchLit "find".data l with
  | some r => lazyScanAlts findAlternatives r
  | none => none

/-- `re.search(r'find.*?(phone|keys|cup|bottle|bag|book|box)', s)`. -/
def searchFindObj (s : String) : Option (List Char) := scanOpt tryFindObj s.data

/-- `(?:you|me|the robot)` at the head (nothing follows it in any pattern,
so only the success of the alternation matters). -/
def matchYouMeRobot (l : List Char) : Bool :=
  startsWithL l "you".data || startsWithL l "me".data ||
    startsWithL l "the robot".data

/-- `the\s+(\w+)\s+behind\s+(?:you|me|the robot)` positional; returns the
captured word. -/
def tryDirTheBehind (l : List Char) : Option (List Char) :=
  match matchLit "the".data l with
  | none => none
  | some r1 =>
    match matchWSPlus r1 with
    | none => none
    | some r2 =>
      match matchWord r2 with
      | none => none
      | some (w, r3) =>
        match matchWSPlus r3 with
        | none => none
        | some r4 =>
          match matchLit "behind".data r4 with
          | none => none
          | some r5 =>
            match matchWSPlus r5 with
            | none => none
            | some r6 => if matchYouMeRobot r6 then some w else none

/-- `(\w+)\s+behind\s+(?:you|me|the robot)` positional. -/
def tryDirBehind (l : List Char) : Option (List Char) :=
  match matchWord l with
  | none => none
  | some (w, r1) =>
    match matchWSPlus r1 with
    | none => none
    | some r2 =>
      match matchLit "behind".data r2 with
      | none => none
      | some r3 =>
        match matchWSPlus r3 with
        | none => none
        | some r4 => if matchYouMeRobot r4 then some w else none

/-- `the\s+(\w+)\s+in\s+front\s+(?:of\s+)?(?:you|me|the robot)` positional. -/
def tryDirInFront (l : List Char) : Option (List Char) :=
  match matchLit "the".data l with
  | none => none
  | some r1 =>
    match matchWSPlus r1 with
    | none => none
    | some r2 =>
      match matchWord r2 with
      | none => none
      | some (w, r3) =>
        match matchWSPlus r3 with
        | none => none
        | some r4 =>
          match matchLit "in".data r4 with
          | none => none
          | some r5 =>
            match matchWSPlus r5 with
            | none => none
            | some r6 =>
              match matchLit "front".data r6 with
              | none => none
              | some r7 =>
                match matchWSPlus r7 with
                | none => none
                | some r8 =>
                  -- greedy optional `of\s+`, then the final alternation
                  let viaOf :=
                    match matchLit "of".data r8 with
                    | none => false
                    | some r9 =>
                      match matchWSPlus r9 with
                      | none => false
                      | some r10 => matchYouMeRobot r10
                  if viaOf || matchYouMeRobot r8 then some w else none

/-- `to\s+the\s+(\w+)\s+behind` positional. -/
def tryDirToTheBehind (l : List Char) : Option (List Char) :=
  match matchLit "to".data l with
  | none => none
  | some r1 =>
    match matchWSPlus r1 with
    | none => none
    | some r2 =>
      match matchLit "the".data r2 with
      | none => none
      | some r3 =>
        match matchWSPlus r3 with
        | none => none
        | some r4 =>
          match matchWord r4 with
          | none => none
          | some (w, r5) =>
            match matchWSPlus r5 with
            | none => none
            | some r6 =>
              if (matchLit "behind".data r6).isSome then some w else none

/-- Is an occurrence of `behind` reachable without crossing a newline
(the `.*behind` tail of the last directional pattern)? -/
def behindReachable : List Char → Bool
  | [] => false
  | c :: t =>
    startsWithL (c :: t) "behind".data || (c != '\n' && behindReachable t)

/-- Greedy backtracking of `(\w+)` in `(\w+).*behind`: the largest
`j ≤ maxRun` such that after giving `j` characters to the capture an
occurrence of `behind` is still reachable. -/
def bestWordLen (l : List Char) : ℕ → Option ℕ
  | 0 => none
  | j + 1 =>
    if behindReachable (l.drop (j + 1)) then some (j + 1) else bestWordLen l j

/-- `(\w+).*behind` positional. -/
def tryDirWordBehind (l : List Char) : Option (List Char) :=
  let w := l.takeWhile isWordCh
  if w.isEmpty then none
  else
    match bestWordLen l w.length with
    | some j => some (l.take j)
    | none => none

/-- `filler_words` of `_extract_target_from_goal`. -/
def fillerWords : List (List Char) :=
  ["one", "it", "that", "this", "thing", "go", "navigate", "move"].map
    String.data

/-- One step of the directional-pattern loop: search the pattern, apply the
extractor and keep the result only when the extracted object word is not a
filler word (otherwise the loop moves on to the next pattern). -/
def dirStep (g : List Char) (pat : List Char → Option (List Char))
    (mk : List Char → List Char) : Option (List Char) :=
  match scanOpt pat g with
  | none => none
  | some w =>
    let extracted := mk w
    if fillerWords.contains (lastWordL extracted) then none else some extracted

/-- The `directional_patterns` loop of `_extract_target_from_goal`. -/
def directionalExtract (g : List Char) : Option (List Char) :=
  match dirStep g tryDirTheBehind (fun w => "back ".data ++ w) with
  | some e => some e
  | none =>
    match dirStep g tryDirBehind (fun w => "back ".data ++ w) with
    | some e => some e
    | none =>
      match dirStep g tryDirInFront (fun w => "front ".data ++ w) with
      | some e => some e
      | none =>
        match dirStep g tryDirToTheBehind (fun w => "back ".data ++ w) with
        | some e => some e
        | none => dirStep g tryDirWordBehind (fun w => "back ".data ++ w)

/-- `(left|right|center|middle)` at the head; returns the alternative chosen
(in pattern order) and the remainder. -/
def matchPosAlt (l : List Char) : Option (List Char × List Char) :=
  match tryAlts (["left", "right", "center", "middle"].map String.data) l with
  | some a => some (a, l.drop a.length)
  | none => none

/-- `the\s+(left|right|center|middle)\s+(\w+)\s+(\w+)` positional
(the `adj_noun_pattern`). -/
def tryAdjNoun (l : List Char) : Option (List Char × List Char × List Char) :=
  match matchLit "the".data l with
  | none => none
  | some r1 =>
    match matchWSPlus r1 with
    | none => none
    | some r2 =>
      match matchPosAlt r2 with
      | none => none
      | some (pos, r3) =>
        match matchWSPlus r3 with
        | none => none
        | some r4 =>
          match matchWord r4 with
          | none => none
          | some (w2, r5) =>
            match matchWSPlus r5 with
            | none => none
            | some r6 =>
              match matchWord r6 with
              | none => none
              | some (w3, _) => some (pos, w2, w3)

/-- `the\s+(\w+)\s+on\s+the\s+(left|right|center|middle)\s*(?:side)?`
positional (trailing optional group does not constrain the match). -/
def tryPosOnThe (l : List Char) : Option (List Char × List Char) :=
  match matchLit "the".data l with
  | none => none
  | some r1 =>
    match matchWSPlus r1 with
    | none => none
    | some r2 =>
      match matchWord r2 with
      | none => none
      | some (w, r3) =>
        match matchWSPlus r3 with
        | none => none
        | some r4 =>
          match matchLit "on".data r4 with
          | none => none
          | some r5 =>
            match matchWSPlus r5 with
            | none => none
            | some r6 =>
              match matchLit "the".data r6 with
              | none => none
              | some r7 =>
                match matchWSPlus r7 with
                | none => none
                | some r8 =>
                  match matchPosAlt r8 with
                  | none => none
                  | some (pos, _) => some (w, pos)

/-- `the\s+(left|right|center|middle)\s+(\w+)` positional. -/
def tryPosThe (l : List Char) : Option (List Char × List Char) :=
  match matchLit "the".data l with
  | none => none
  | some r1 =>
    match matchWSPlus r1 with
    | none => none
    | some r2 =>
      match matchPosAlt r2 with
      | none => none
      | some (pos, r3) =>
        match matchWSPlus r3 with
        | none => none
        | some r4 =>
          match matchWord r4 with
          | none => none
          | some (w, _) => some (pos, w)

/-- `(\w+)\s+to\s+the\s+(left|right)` positional. -/
def tryPosToThe (l : List Char) : Option (List Char × List Char) :=
  match matchWord l with
  | none => none
  | some (w, r1) =>
    match matchWSPlus r1 with
    | none => none
    | some r2 =>
      match matchLit "to".data r2 with
      | none => none
      | some r3 =>
        match matchWSPlus r3 with
        | none => none
        | some r4 =>
          match matchLit "the".data r4 with
          | none => none
          | some r5 =>
            match matchWSPlus r5 with
            | none => none
            | some r6 =>
              match tryAlts (["left", "right"].map String.data) r6 with
              | some a => some (w, a)
              | none => none

/-- `Misty said: '(.+?)'` — lazy capture: the shortest nonempty newline-free
run of characters followed by a closing quote. -/
def lazyCaptAux : List Char → List Char → Option (List Char)
  | _, [] => none
  | acc, c :: t =>
    if c == '\'' && !acc.isEmpty then some acc.reverse
    else if c == '\n' then none
    else lazyCaptAux (c :: acc) t

/-- `Misty said: '(.+?)'` positional. -/
def tryMistySaid (l : List Char) : Option (List Char) :=
  match matchLit "Misty said: '".data l with
  | some r => lazyCaptAux [] r
  | none => none

/-- `re.search(r"Misty said: '(.+?)'", s)`. -/
def searchMistySaid (s : String) : Option (List Char) := scanOpt tryMistySaid s.data

/-- Drop a leading colon (the `:?` of the separator pattern). -/
def dropColonHead (l : List Char) : List Char :=
  match l with
  | [] => l
  | c :: rr => if c = ':' then rr else l

theorem dropColonHead_length_le (l : List Char) :
    (dropColonHead l).length ≤ l.length := by
  cases l with
  | nil => simp [dropColonHead]
  | cons c t =>
    simp only [dropColonHead]
    split
    · simp
    · simp

/-- The separator `,\s*then:?\s*` of `re.split` in format 2 of
`update_from_action`: on success, the remainder after the separator. -/
def matchThenSep (l : List Char) : Option (List Char) :=
  match l with
  | [] => none
  | c :: r =>
    if c = ',' then
      let r1 := r.dropWhile isSpaceCh
      if startsWithL r1 "then".data then
        some ((dropColonHead (r1.drop 4)).dropWhile isSpaceCh)
      else none
    else none

theorem matchThenSep_shrinks (l rest : List Char)
    (h : matchThenSep l = some rest) : rest.length < l.length := by
  cases l with
  | nil => simp [matchThenSep] at h
  | cons c r =>
    simp only [matchThenSep] at h
    split_ifs at h
    obtain rfl := Option.some_injective _ h.symm
    have h1 : (r.dropWhile isSpaceCh).length ≤ r.length :=
      dropWhile_length_le _ _
    have h2 : ((r.dropWhile isSpaceCh).drop 4).length ≤
        (r.dropWhile isSpaceCh).length := by
      simp [List.length_drop]
    have h3 := dropColonHead_length_le ((r.dropWhile isSpaceCh).drop 4)
    have h4 := dropWhile_length_le isSpaceCh
      (dropColonHead ((r.dropWhile isSpaceCh).drop 4))
    simp only [List.length_cons]
    omega

/-- `re.split(r',\s*then:?\s*', s)` — fuelled structural recursion (the
separator consumes at least its leading comma, so `fuel = l.length`
suffices and the `0` case is unreachable); the accumulator holds the
current piece reversed. -/
def splitThenGo : ℕ → List Char → List Char → List (List Char)
  | _, acc, [] => [acc.reverse]
  | 0, acc, l => [acc.reverse ++ l]
  | fuel + 1, acc, c :: t =>
    match matchThenSep (c :: t) with
    | some rest => acc.reverse :: splitThenGo fuel [] rest
    | none => splitThenGo fuel (c :: acc) t

/-- `re.split(r',\s*then:?\s*', s)`. -/
def splitThen (s : String) : List String :=
  (splitThenGo s.data.length [] s.data).map (fun l => ⟨l⟩)

/-! ## Data model (`world_model.py`)

Scene objects keep the property keys the simulation core actually reads:
`obstacle`, `radius`, `side`, `id` (plus the derived `visible` flag written
by `_update_visibility`).  The transient `_computed_distance`/`_computed_angle`
fields only feed the POV rendering strings and are not modelled. -/

structure SceneObject where
  name : String
  position : ℝ × ℝ
  obstacle : Bool
  radius : Option ℝ
  side : Option String
  id : Option String
  visible : Bool

structure WorldModel where
  robot_position : ℝ × ℝ
  robot_orientation : ℝ
  objects : List SceneObject
  action_history : List String

/-- `_check_collision_on_path`'s return dictionary (its constant
`"collision": True` entry is implicit in the `some`). -/
structure CollisionInfo where
  obstacle_name : String
  obstacle_position : ℝ × ℝ
  collision_point : ℝ × ℝ
  collision_message : String

open scoped Classical

noncomputable section

/-- `WorldModel.ROBOT_RADIUS`. -/
def ROBOT_RADIUS : ℝ := 0.1

/-- `WorldModel.OBSTACLE_RADIUS`. -/
def OBSTACLE_RADIUS : ℝ := 0.1

/-- Python's float `x % 360` (result in `[0, 360)` for the positive
divisor). -/
def fmod360 (x : ℝ) : ℝ := x - 360 * ⌊x / 360⌋

/-- `math.atan2(y, x)` (C convention). -/
def atan2 (y x : ℝ) : ℝ :=
  if 0 < x then Real.arctan (y / x)
  else if x < 0 ∧ 0 ≤ y then Real.arctan (y / x) + Real.pi
  else if x < 0 ∧ y < 0 then Real.arctan (y / x) - Real.pi
  else if x = 0 ∧ 0 < y then Real.pi / 2
  else if x = 0 ∧ y < 0 then -(Real.pi / 2)
  else 0

/-- `FOV_ANGLE` of `_update_visibility`. -/
def FOV_ANGLE : ℝ := 120

/-- `MAX_DISTANCE` of `_update_visibility`. -/
def MAX_DISTANCE : ℝ := 10.0

/-- The visibility computation of `_update_visibility` for one object
position, given the robot pose. -/
def visibleFlag (rpos : ℝ × ℝ) (rori : ℝ) (opos : ℝ × ℝ) : Bool :=
  let dx := opos.1 - rpos.1
  let dy := opos.2 - rpos.2
  let distance := Real.sqrt (dx ^ 2 + dy ^ 2)
  if distance > MAX_DISTANCE then false
  else
    let angleToObj := fmod360 (atan2 dx dy * 180 / Real.pi)
    let orientationNorm := fmod360 rori
    let angleDiff0 := |angleToObj - orientationNorm|
    let angleDiff := if angleDiff0 > 180 then 360 - angleDiff0 else angleDiff0
    decide (angleDiff ≤ FOV_ANGLE / 2)

/-- `_update_visibility`: rewrite every object's `visible` flag from the
current pose. -/
def updateVisibilityList (rpos : ℝ × ℝ) (rori : ℝ)
    (objs : List SceneObject) : List SceneObject :=
  objs.map fun o => { o with visible := visibleFlag rpos rori o.position }

/-- `_get_obstacles`. -/
def get_obstacles (objs : List SceneObject) : List SceneObject :=
  objs.filter (·.obstacle)

/-- The f-string `"Robot collided with {name} at ({x:.2f}, {y:.2f})"`; the
two-decimal float rendering is display-only and elided here. -/
def collisionMessage (name : String) : String := "Robot collided with " ++ name

/-- The per-obstacle body of the loop in `_check_collision_on_path`. -/
def collisionForObstacle (startP endP : ℝ × ℝ) (pathLength dirX dirY : ℝ)
    (obstacle : SceneObject) : Option CollisionInfo :=
  let obsPos := obstacle.position
  let obsRadius := obstacle.radius.getD OBSTACLE_RADIUS
  let collisionDistance := ROBOT_RADIUS + obsRadius
  let toObsX := obsPos.1 - startP.1
  let toObsY := obsPos.2 - startP.2
  let projection := toObsX * dirX + toObsY * dirY
  let closestX :=
    if projection < 0 then startP.1
    else if projection > pathLength then endP.1
    else startP.1 + projection * dirX
  let closestY :=
    if projection < 0 then startP.2
    else if projection > pathLength then endP.2
    else startP.2 + projection * dirY
  let distToObstacle :=
    Real.sqrt ((closestX - obsPos.1) ^ 2 + (closestY - obsPos.2) ^ 2)
  if distToObstacle < collisionDistance then
    let backupDist := collisionDistance - distToObstacle + 0.05
    let collisionPointX :=
      if 0 < projection ∧ projection < pathLength then
        closestX - backupDist * dirX
      else closestX
    let collisionPointY :=
      if 0 < projection ∧ projection < pathLength then
        closestY - backupDist * dirY
      else closestY
    some { obstacle_name := obstacle.name
           obstacle_position := obsPos
           collision_point := (collisionPointX, collisionPointY)
           collision_message := collisionMessage obstacle.name }
  else none

/-- The obstacle loop of `_check_collision_on_path` (first hit wins). -/
def firstCollision (startP endP : ℝ × ℝ) (pathLength dirX dirY : ℝ) :
    List SceneObject → Option CollisionInfo
  | [] => none
  | o :: rest =>
    match collisionForObstacle startP endP pathLength dirX dirY o with
    | some c => some c
    | none => firstCollision startP endP pathLength dirX dirY rest

/-- `_check_collision_on_path`. -/
def check_collision_on_path (startP endP : ℝ × ℝ)
    (objects : List SceneObject) : Option CollisionInfo :=
  let obstacles := get_obstacles objects
  if obstacles.isEmpty then none
  else
    let dx := endP.1 - startP.1
    let dy := endP.2 - startP.2
    let pathLength := Real.sqrt (dx ^ 2 + dy ^ 2)
    if pathLength < 0.01 then none
    else
      firstCollision startP endP pathLength (dx / pathLength) (dy / pathLength)
        obstacles

/-- `try_move` inside `update_from_action`: attempt a forward translation at
the given orientation, stopping at the collision point on a hit. -/
def try_move (distance : ℚ) (orientation : ℝ) (s : WorldModel) :
    WorldModel × Option CollisionInfo :=
  let rad := orientation * Real.pi / 180
  let newX := s.robot_position.1 + (distance : ℝ) * Real.sin rad
  let newY := s.robot_position.2 + (distance : ℝ) * Real.cos rad
  match check_collision_on_path s.robot_position (newX, newY) s.objects with
  | some collision =>
    ({ s with robot_position := collision.collision_point }, some collision)
  | none => ({ s with robot_position := (newX, newY) }, none)

/-- `try_move_backward`. -/
def try_move_backward (distance : ℚ) (orientation : ℝ) (s : WorldModel) :
    WorldModel × Option CollisionInfo :=
  let rad := orientation * Real.pi / 180
  let newX := s.robot_position.1 - (distance : ℝ) * Real.sin rad
  let newY := s.robot_position.2 - (distance : ℝ) * Real.cos rad
  match check_collision_on_path s.robot_position (newX, newY) s.objects with
  | some collision =>
    ({ s with robot_position := collision.collision_point }, some collision)
  | none => ({ s with robot_position := (newX, newY) }, none)

/-- Format 1 of `update_from_action`
(`"Misty navigated to X (adjusted Y°, moved Zm)"`). -/
def format1 (desc : String) (s : WorldModel) :
    WorldModel × Option CollisionInfo :=
  let s1 :=
    match searchAdjustedDeg desc with
    | some degrees =>
      if degrees ≠ 0 then
        { s with robot_orientation := fmod360 (s.robot_orientation + degrees) }
      else s
    | none => s
  match searchMovedNumM desc with
  | some distance => try_move distance s1.robot_orientation s1
  | none => (s1, none)

/-- The body of the format-2 loop for one sub-action string: all four
keyword blocks run in order (they are separate `if`s in the source, so a
sub-action can both turn and translate), and a later collision overwrites
an earlier one within the same sub-action. -/
def applySubAction (sub : String) (s : WorldModel) :
    WorldModel × Option CollisionInfo :=
  let subLower := lowerStr sub
  let s1 :=
    if containsStr subLower "turned right" || containsStr subLower "turn right" then
      match searchNatDeg sub with
      | some degrees =>
        { s with robot_orientation := fmod360 (s.robot_orientation + degrees) }
      | none => s
    else s
  let s2 :=
    if containsStr subLower "turned left" || containsStr subLower "turn left" then
      match searchNatDeg sub with
      | some degrees =>
        { s1 with robot_orientation := fmod360 (s1.robot_orientation - degrees) }
      | none => s1
    else s1
  let fwd :=
    if containsStr subLower "moved forward" || containsStr subLower "move forward" then
      match searchNumM sub with
      | some distance => try_move distance s2.robot_orientation s2
      | none => (s2, none)
    else (s2, none)
  let bwd :=
    if containsStr subLower "moved backward" || containsStr subLower "move backward" then
      match searchNumM sub with
      | some distance => try_move_backward distance fwd.1.robot_orientation fwd.1
      | none => (fwd.1, none)
    else (fwd.1, none)
  (bwd.1, bwd.2 <|> fwd.2)

/-- The format-2 loop: process sub-actions in order, breaking before the
next sub-action once a collision has been recorded. -/
def runSubActions : List String → WorldModel → Option CollisionInfo →
    WorldModel × Option CollisionInfo
  | [], s, c => (s, c)
  | sub :: rest, s, c =>
    match c with
    | some info => (s, some info)
    | none =>
      let step := applySubAction sub s
      runSubActions rest step.1 step.2

/-- Format 3 of `update_from_action` (simple single actions; past-tense
keywords only, and the turn regex is a bare `(\d+)`). -/
def format3 (desc actionLower : String) (s : WorldModel) :
    WorldModel × Option CollisionInfo :=
  let s1 :=
    if containsStr actionLower "turned right" then
      match searchNat desc with
      | some degrees =>
        { s with robot_orientation := fmod360 (s.robot_orientation + degrees) }
      | none => s
    else s
  let s2 :=
    if containsStr actionLower "turned left" then
      match searchNat desc with
      | some degrees =>
        { s1 with robot_orientation := fmod360 (s1.robot_orientation - degrees) }
      | none => s1
    else s1
  let fwd :=
    if containsStr actionLower "moved forward" then
      match searchNumM desc with
      | some distance => try_move distance s2.robot_orientation s2
      | none => (s2, none)
    else (s2, none)
  let bwd :=
    if containsStr actionLower "moved backward" then
      match searchNumM desc with
      | some distance => try_move_backward distance fwd.1.robot_orientation fwd.1
      | none => (fwd.1, none)
    else (fwd.1, none)
  (bwd.1, bwd.2 <|> fwd.2)

/-- `update_from_action`: append to the history, dispatch on the three
recognized formats, then recompute visibility. -/
def update_from_action (action_description : String) (wm : WorldModel) :
    WorldModel × Option CollisionInfo :=
  let wm0 := { wm with action_history := wm.action_history ++ [action_description] }
  let actionLower := lowerStr action_description
  let step :=
    if containsStr actionLower "navigated to" then format1 action_description wm0
    else if containsStr action_description ", then " ||
        containsStr action_description ", then:" then
      runSubActions (splitThen action_description) wm0 none
    else format3 action_description actionLower wm0
  ({ step.1 with
      objects := updateVisibilityList step.1.robot_position
        step.1.robot_orientation step.1.objects },
    step.2)

end

/-! ## Action renderer (`action_parser.py`)

Numeric JSON fields are modelled by their decimal rendering (a `String`),
since `parse_action` only ever interpolates them into the produced text. -/

/-- One entry of a multi-action `actions` list. -/
structure SubIntent where
  action : Option String
  distance : String
  turn_degrees : String

/-- A robot VLM response (`vlm_response`). -/
structure Intent where
  action : Option String
  text : Option String
  target_object : Option String
  distance : String
  turn_degrees : String
  actions : Option (List SubIntent)

/-- The loop building `descriptions` in the multi-action block. -/
def subIntentDescriptions : List SubIntent → List String
  | [] => []
  | act :: rest =>
    let tail := subIntentDescriptions rest
    match act.action with
    | some "forward" => ("moved forward " ++ act.distance ++ "m") :: tail
    | some "backward" => ("moved backward " ++ act.distance ++ "m") :: tail
    | some "turn_left" => ("turned left " ++ act.turn_degrees ++ "°") :: tail
    | some "turn_right" => ("turned right " ++ act.turn_degrees ++ "°") :: tail
    | _ => tail

/-- `ActionParser.parse_action`. -/
def parse_action (v : Intent) : String :=
  if v.action == some "clarify" then
    "Misty asked: '" ++ v.text.getD "asked for clarification" ++ "'"
  else if v.action == some "find_object" then
    "Misty will perform 360° scan to find " ++ v.target_object.getD "object"
  else if v.action == some "describe_vision" then
    "Misty described what it sees"
  else if v.action == some "speak" then
    "Misty said: '" ++ v.text.getD "" ++ "'"
  else
    let multi :=
      match v.actions with
      | some acts =>
        let descriptions := subIntentDescriptions acts
        if descriptions.isEmpty then none
        else
          let statement := v.text.getD ""
          if statement ≠ "" then
            some ("Misty said '" ++ statement ++ "', then: " ++
              String.intercalate ", then " descriptions)
          else
            some ("Misty executed: " ++ String.intercalate ", then " descriptions)
      | none => none
    match multi with
    | some r => r
    | none =>
      if v.action == some "forward" then
        "Misty moved forward " ++ v.distance ++ " meters"
      else if v.action == some "backward" then
        "Misty moved backward " ++ v.distance ++ " meters"
      else if v.action == some "turn_left" then
        "Misty turned left " ++ v.turn_degrees ++ " degrees"
      else if v.action == some "turn_right" then
        "Misty turned right " ++ v.turn_degrees ++ " degrees"
      else if v.action == some "spatial_navigate" then
        "Misty navigated to " ++ v.target_object.getD "object" ++
          " (adjusted " ++ v.turn_degrees ++ "°, moved " ++ v.distance ++ "m)"
      else if v.action == some "stop" then
        "Misty stopped"
      else
        "Misty executed action: " ++ v.action.getD "None"

/-! ## Task evaluator (`task_evaluator.py`) -/

/-- The structured goal conditions produced by `_parse_goal_conditions`. -/
inductive Condition where
  | navigate_to_object (target : String) (distance_threshold : ℚ)
  | move_distance (direction : String) (target_distance : ℚ) (tolerance : ℚ)
  | turn_to_orientation (target_orientation : ℚ) (tolerance : ℚ)
  | find_object (target : String)
  | perceptual_task (goal_text : String)
deriving DecidableEq

/-- One interaction-log turn; only `robot_action_description` is read by the
evaluator, the remaining keys are display/logging payload. -/
structure Turn where
  robot_action_description : String

/-- The interaction log as the evaluator consumes it (the `turns` key is
always present in the dictionary the simulator builds). -/
structure InteractionLog where
  turns : List Turn
  collision : Option CollisionInfo

/-- `specific_targets` of `_extract_target_from_goal` (priority 1). -/
def specific_targets : List String :=
  ["red cup", "blue cup", "green cup", "white cup",
   "red book", "blue book", "green book",
   "red mug", "white mug",
   "left bottle", "center bottle", "middle bottle", "right bottle",
   "left chair", "right chair",
   "left door", "right door",
   "left trash bin", "center trash bin", "right trash bin",
   "medium box", "small box", "large box",
   "back plant", "front plant", "back door", "front door"]

/-- `common_adjectives` of the `adj_noun_pattern` block. -/
def common_adjectives : List (List Char) :=
  ["water", "plastic", "glass", "metal", "wooden", "small", "large",
   "big", "old", "new", "red", "blue", "green", "white", "black"].map
    String.data

/-- The `adj_noun_pattern` block (priority 3, first part): on a match,
choose the noun according to the adjective list, normalize `middle` to
`center`, and drop the result when its object word is a filler word. -/
def adjNounStep (g : List Char) : Option (List Char) :=
  match scanOpt tryAdjNoun g with
  | none => none
  | some (pos, w2, w3) =>
    let extracted :=
      if common_adjectives.contains w2 then pos ++ ' ' :: w3
      else pos ++ ' ' :: w2
    let extracted2 := replaceL extracted "middle".data "center".data
    if fillerWords.contains (lastWordL extracted2) then none else some extracted2

/-- One step of the `positional_patterns` loop: search, extract, normalize
`middle` to `center`, and skip when the object word is a filler word. -/
def posStep (g : List Char) (pat : List Char → Option (List Char × List Char))
    (mk : List Char × List Char → List Char) : Option (List Char) :=
  match scanOpt pat g with
  | none => none
  | some m =>
    let extracted := replaceL (mk m) "middle".data "center".data
    if fillerWords.contains (lastWordL extracted) then none else some extracted

/-- `generic_objects` of `_extract_target_from_goal` (priority 4). -/
def generic_objects : List String :=
  ["cup", "bottle", "plant", "book", "laptop", "keys",
   "phone", "door", "chair", "desk", "table", "fridge",
   "trash bin", "box", "bag", "kitchen", "office", "mug"]

/-- `_extract_target_from_goal` (argument is the lowercased goal). -/
def extract_target_from_goal (goalLower : String) : Option String :=
  match specific_targets.find? (fun t => containsStr goalLower t) with
  | some t => some t
  | none =>
    match directionalExtract goalLower.data with
    | some e => some ⟨e⟩
    | none =>
      match adjNounStep goalLower.data with
      | some e => some ⟨e⟩
      | none =>
        match posStep goalLower.data tryPosOnThe
            (fun m => m.2 ++ ' ' :: m.1) with
        | some e => some ⟨e⟩
        | none =>
          match posStep goalLower.data tryPosThe
              (fun m => m.1 ++ ' ' :: m.2) with
          | some e => some ⟨e⟩
          | none =>
            match posStep goalLower.data tryPosToThe
                (fun m => m.2 ++ ' ' :: m.1) with
            | some e => some ⟨e⟩
            | none => generic_objects.find? (fun t => containsStr goalLower t)

/-- The `directional_qualifiers` scan of `_check_navigation_to_object`:
first matching keyword (dict order `back` before `front`) fixes the
direction, and the object type is the target with that keyword removed and
stripped. -/
def directionalQualifierOf (targetLower : String) : Option (String × String) :=
  if containsStr targetLower "back" then
    some ("back", stripStr (replaceStr targetLower "back" ""))
  else if containsStr targetLower "behind" then
    some ("back", stripStr (replaceStr targetLower "behind" ""))
  else if containsStr targetLower "front" then
    some ("front", stripStr (replaceStr targetLower "front" ""))
  else if containsStr targetLower "ahead" then
    some ("front", stripStr (replaceStr targetLower "ahead" ""))
  else if containsStr targetLower "forward" then
    some ("front", stripStr (replaceStr targetLower "forward" ""))
  else none

/-- Case 3 of the resolution loop: the inner qualifier loop as a single
boolean (only whether some qualifier fires matters — the inner `break`
leaves the outer loop running either way). -/
def case3Match (targetLower : String) (obj : SceneObject) : Bool :=
  let nameL := lowerStr obj.name
  ["left", "center", "middle", "right"].any fun qual =>
    containsStr targetLower qual &&
    (containsStr nameL qual || obj.side == some qual || obj.id == some qual) &&
    ((splitWS targetLower.data).any
        (fun t => t ≠ qual.data && containsL nameL.data t) ||
      containsL nameL.data (stripL (replaceL targetLower.data qual.data [])))

noncomputable section

/-- Outcome of one iteration of the object loop of
`_check_navigation_to_object`: `ret` is a `break` with the found object,
`cont` continues with the (possibly updated) `target_obj` accumulator. -/
inductive LoopStep where
  | ret (o : SceneObject)
  | cont (acc : Option SceneObject)

/-- One iteration of the object loop.  Case 1 (directional) matches on `id`
or on the sign of the y-coordinate; a falsy `target_object_type` skips
case 1; case 2 is an exact-name `break`; case 3 overwrites the accumulator
and keeps scanning; case 4 keeps the first partial match. -/
def resolveStep (targetLower : String) (tdir : Option (String × String))
    (obj : SceneObject) (acc : Option SceneObject) : LoopStep :=
  let nameL := lowerStr obj.name
  let case1 : Bool :=
    match tdir with
    | some (_, objType) => objType != ""
    | none => false
  if case1 then
    match tdir with
    | some (direction, objType) =>
      if !(containsStr nameL objType || containsStr objType nameL) then
        .cont acc
      else if lowerStr (obj.id.getD "") == direction then .ret obj
      else if direction == "back" && decide (obj.position.2 < 0) then .ret obj
      else if direction == "front" && decide (obj.position.2 > 0) then
        .cont (if acc.isNone then some obj else acc)
      else .cont acc
    | none => .cont acc
  else if nameL == targetLower then .ret obj
  else if ["left", "center", "middle", "right"].any
      (fun q => containsStr targetLower q) then
    if case3Match targetLower obj then .cont (some obj) else .cont acc
  else if containsStr nameL targetLower then
    .cont (if acc.isNone then some obj else acc)
  else .cont acc

/-- The object loop of `_check_navigation_to_object`. -/
def resolveTargetLoop (targetLower : String) (tdir : Option (String × String)) :
    List SceneObject → Option SceneObject → Option SceneObject
  | [], acc => acc
  | obj :: rest, acc =>
    match resolveStep targetLower tdir obj acc with
    | .ret o => some o
    | .cont newAcc => resolveTargetLoop targetLower tdir rest newAcc

end

/-- `_parse_goal_conditions`. -/
def parse_goal_conditions (task_goal : String) : List Condition :=
  let g := lowerStr task_goal
  if containsStr g "describe" || containsStr g "report" || containsStr g "check"
      || containsStr g "count" then
    let base := [Condition.perceptual_task g]
    if containsStr g "navigate to" || containsStr g "go to" then
      match extract_target_from_goal g with
      | some target => base ++ [Condition.navigate_to_object target 2.0]
      | none => base
    else base
  else if containsStr g "find" then
    match searchFindObj g with
    | some target => [Condition.find_object ⟨target⟩]
    | none => []
  else
    let conditions :=
      if containsStr g "navigate to" || containsStr g "go to" then
        match extract_target_from_goal g with
        | some target =>
          let distance_threshold : ℚ :=
            if containsStr g "very close" || containsStr g "within" then
              match searchWithinM g with
              | some d => d
              | none => 0.5
            else 0.8
          [Condition.navigate_to_object target distance_threshold]
        | none => []
      else if containsStr g "move forward" || containsStr g "move backward" then
        let direction := if containsStr g "forward" then "forward" else "backward"
        match searchMeter g with
        | some d => [Condition.move_distance direction d 0.3]
        | none => [Condition.move_distance direction 0.5 0.5]
      else if containsStr g "turn around" || containsStr g "180" then
        [Condition.turn_to_orientation 180 30]
      else []
    if conditions.isEmpty then
      match extract_target_from_goal g with
      | some target => [Condition.navigate_to_object target 0.5]
      | none => []
    else conditions

noncomputable section

/-- The textual failure reason of a distance check; the source interpolates
the robot/target coordinates and the distance with `:.2f` float formatting,
which is display-only and elided here. -/
def navigationFailureMessage (target : String) : String :=
  "distance to target '" ++ target ++ "' exceeds threshold"

/-- `_check_navigation_to_object`. -/
def check_navigation_to_object (target : String) (threshold : ℚ)
    (wm : WorldModel) : Bool × Option String :=
  let targetLower := lowerStr target
  let tdir := directionalQualifierOf targetLower
  match resolveTargetLoop targetLower tdir wm.objects none with
  | none =>
    (false, some ("Target object '" ++ target ++ "' not found in world"))
  | some obj =>
    let dx := obj.position.1 - wm.robot_position.1
    let dy := obj.position.2 - wm.robot_position.2
    let distance_to_target := Real.sqrt (dx ^ 2 + dy ^ 2)
    if distance_to_target ≤ (threshold : ℝ) then (true, none)
    else (false, some (navigationFailureMessage target))

end

/-- `_check_move_distance` (only action-history keywords are consulted). -/
def check_move_distance (direction : String) (wm : WorldModel) :
    Bool × Option String :=
  let keywords :=
    if direction == "forward" then ["moved forward", "forward"]
    else if direction == "backward" then ["moved backward", "backward", "back up"]
    else [direction]
  if wm.action_history.any
      (fun a => keywords.any (fun k => containsStr (lowerStr a) k)) then
    (true, none)
  else (false, some ("No " ++ direction ++ " movement action found"))

noncomputable section

/-- `_check_orientation`; the failure reason interpolates numbers and is
elided to a constant message. -/
def check_orientation (target_orientation tolerance : ℚ) (wm : WorldModel) :
    Bool × Option String :=
  let diff0 := |wm.robot_orientation - (target_orientation : ℝ)|
  let diff := if diff0 > 180 then 360 - diff0 else diff0
  if diff ≤ (tolerance : ℝ) then (true, none)
  else (false, some "orientation outside tolerance")

end

/-- `_check_find_object`. -/
def check_find_object (target : String) (wm : WorldModel) :
    Bool × Option String :=
  if wm.action_history.any (fun action =>
      (containsStr action "360° scan" ||
        containsStr (lowerStr action) "find_object") &&
      containsStr (lowerStr action) target) then
    (true, none)
  else (false, some ("Did not perform 360° scan to find " ++ target))

/-- `number_words` of `_check_perceptual_task`. -/
def number_words : List String :=
  ["zero", "one", "two", "three", "four", "five", "six", "seven",
   "eight", "nine", "ten", "eleven", "twelve", "no", "none", "several", "many"]

/-- The `check_subjects` list built from the goal text. -/
def checkSubjects (goal_text : String) : List String :=
  (if containsStr goal_text "plugged" then ["plugged", "power", "connected"]
   else []) ++
  (if containsStr goal_text "count" then
     ["count", "there are", "there is", "total"] ++ number_words
   else []) ++
  (if containsStr goal_text "report" || containsStr goal_text "check" then
     ["yes", "no", "is", "are"]
   else [])

/-- The per-turn spoken-answer test of `_check_perceptual_task`. -/
def turnAnswers (goal_text : String) (subjects : List String)
    (turn : Turn) : Bool :=
  let desc := turn.robot_action_description
  containsStr desc "Misty said:" &&
    match searchMistySaid desc with
    | none => false
    | some sp =>
      let speech := lowerL sp
      (containsStr goal_text "count" &&
        (speech.any Char.isDigit ||
          number_words.any (fun nw => containsL speech nw.data))) ||
      subjects.any (fun subj => containsL speech subj.data) ||
      (containsStr goal_text "check" && decide (speech.length > 5))

/-- `_check_perceptual_task`. -/
def check_perceptual_task (goal_text : String) (wm : WorldModel)
    (log : InteractionLog) : Bool × Option String :=
  let perceptual_action_keywords :=
    ["described", "look around", "looking", "checked", "reported",
     "counted", "scanning", "360° scan"]
  if wm.action_history.any (fun action =>
      perceptual_action_keywords.any
        (fun k => containsStr (lowerStr action) k)) then
    (true, none)
  else if log.turns.any (turnAnswers goal_text (checkSubjects goal_text)) then
    (true, none)
  else
    (false,
     some "Did not perform describe/observation action or provide perceptual answer")

noncomputable section

/-- `_check_condition`. -/
def check_condition (condition : Condition) (wm : WorldModel)
    (log : InteractionLog) : Bool × Option String :=
  match condition with
  | .navigate_to_object target threshold =>
    check_navigation_to_object target threshold wm
  | .move_distance direction _ _ => check_move_distance direction wm
  | .turn_to_orientation target tolerance => check_orientation target tolerance wm
  | .find_object target => check_find_object target wm
  | .perceptual_task goal_text => check_perceptual_task goal_text wm log

/-- The condition loop of `evaluate_task_success`: the number of met
conditions and the collected failure reasons, in order. -/
def evalConditionsLoop (wm : WorldModel) (log : InteractionLog) :
    List Condition → ℕ × List String
  | [] => (0, [])
  | c :: rest =>
    let r := check_condition c wm log
    let tail := evalConditionsLoop wm log rest
    if r.1 then (tail.1 + 1, tail.2) else (tail.1, r.2.getD "" :: tail.2)

/-- `evaluate_task_success`'s result record; the nested `metrics` dictionary
is flattened into the three fields it carries, and the `collision_details`
payload of the collision branch is the `CollisionInfo` already held by the
log. -/
structure SuccessEval where
  success : Bool
  goal_conditions_met : ℕ
  total_goal_conditions : ℕ
  success_rate : ℚ
  failure_reason : Option String
  collision : Bool
  final_position : ℝ × ℝ
  final_orientation : ℝ
  total_actions : ℕ

/-- `TaskEvaluator.evaluate_task_success`. -/
def evaluate_task_success (wm : WorldModel) (task_goal : String)
    (log : InteractionLog) : SuccessEval :=
  match log.collision with
  | some collision_info =>
    { success := false
      goal_conditions_met := 0
      total_goal_conditions := 1
      success_rate := 0.0
      failure_reason :=
        some ("collision with obstacle: " ++ collision_info.obstacle_name)
      collision := true
      final_position := wm.robot_position
      final_orientation := wm.robot_orientation
      total_actions := wm.action_history.length }
  | none =>
    let goal_conditions := parse_goal_conditions task_goal
    let r := evalConditionsLoop wm log goal_conditions
    let total_conditions := goal_conditions.length
    { success := r.1 == total_conditions
      goal_conditions_met := r.1
      total_goal_conditions := total_conditions
      success_rate :=
        if 0 < total_conditions then (r.1 : ℚ) / total_conditions else 0.0
      failure_reason :=
        if r.2.isEmpty then none else some (String.intercalate "; " r.2)
      collision := false
      final_position := wm.robot_position
      final_orientation := wm.robot_orientation
      total_actions := wm.action_history.length }

end

/-! ## Episode loop (`simulator.py`, `simulate_interaction`)

The loop control of `simulate_interaction` depends on the external LLM
agents only through what each iteration observes: whether the robot call
threw, whether the applied action collided, whether the intent was a
clarify, whether the goal evaluation succeeded, and whether the simulated
user returned `None`.  A behaviour is therefore modelled as an arbitrary
function from the turn number to that outcome; each loop iteration makes
exactly one robot-decision invocation (`parse_intent_with_vision`). -/

/-- What one loop iteration observes of the external agents. -/
inductive TurnEvent where
  | errorOut
  | collide
  | clarify (userEnds : Bool)
  | act (goalSuccess : Bool) (userEnds : Bool)

/-- Does the loop continue after an iteration that observed `e`?  Mirrors
the source branches: an exception or a collision breaks; a clarify
continues unless the user returned `None`; an executed action continues
unless the goal evaluation succeeded, the turn budget is exhausted
(`turn_num >= max_turns`), or the user returned `None`. -/
def eventContinues (e : TurnEvent) (maxTurns turn_num : ℕ) : Bool :=
  match e with
  | .errorOut => false
  | .collide => false
  | .clarify userEnds => !userEnds
  | .act goalSuccess userEnds =>
    !goalSuccess && !(decide (maxTurns ≤ turn_num)) && !userEnds

/-- The `while turn_num <= max_turns and not task_complete and not
collision_occurred` loop, counting robot-decision invocations: each
iteration makes exactly one invocation, then either stops or re-enters the
loop with `turn_num + 1` (every continuing branch of the source increments
`turn_num`). -/
def episodeLoop (env : ℕ → TurnEvent) (maxTurns turn_num : ℕ) : ℕ :=
  if turn_num ≤ maxTurns then
    1 +
      (if eventContinues (env turn_num) maxTurns turn_num then
        episodeLoop env maxTurns (turn_num + 1)
      else 0)
  else 0
termination_by maxTurns + 1 - turn_num
decreasing_by
  omega

/-- Robot-decision invocations of one episode (`turn_num` starts at 1). -/
def robotInvocations (env : ℕ → TurnEvent) (maxTurns : ℕ) : ℕ :=
  episodeLoop env maxTurns 1

/-! ## Reference definitions taken from the specification's wording

These are *not* translations of the source: they express the geometric
language the spec uses ("closest point on the segment", "first contact
point", "angular difference wrapped to at most 180°") and are compared
against the source-derived definitions in the theorems below. -/

noncomputable section

/-- Closest point of the segment `[startP, endP]` to `obsPos`, by clamping
the normalized projection parameter to `[0, pathLength]`. -/
def segClosestPoint (startP endP obsPos : ℝ × ℝ) : ℝ × ℝ :=
  let dx := endP.1 - startP.1
  let dy := endP.2 - startP.2
  let L := Real.sqrt (dx ^ 2 + dy ^ 2)
  let proj := ((obsPos.1 - startP.1) * dx + (obsPos.2 - startP.2) * dy) / L
  let t := max 0 (min proj L)
  (startP.1 + t * (dx / L), startP.2 + t * (dy / L))

/-- Distance from an obstacle centre to the closest point of the path
segment (the spec's collision criterion compares this against the combined
radius). -/
def segDist (startP endP obsPos : ℝ × ℝ) : ℝ :=
  let cp := segClosestPoint startP endP obsPos
  Real.sqrt ((cp.1 - obsPos.1) ^ 2 + (cp.2 - obsPos.2) ^ 2)

/-- The point `0.05` short of the first contact point along the path, as the
spec describes the post-collision stop position: first contact is where the
distance from the path point to the obstacle centre first equals the
combined radius. -/
def specFirstContactStop (startP endP obsPos : ℝ × ℝ)
    (combinedRadius : ℝ) : ℝ × ℝ :=
  let dx := endP.1 - startP.1
  let dy := endP.2 - startP.2
  let L := Real.sqrt (dx ^ 2 + dy ^ 2)
  let ux := dx / L
  let uy := dy / L
  let proj := ((obsPos.1 - startP.1) * dx + (obsPos.2 - startP.2) * dy) / L
  let distLineSq :=
    ((obsPos.1 - startP.1) ^ 2 + (obsPos.2 - startP.2) ^ 2) - proj ^ 2
  let tContact := proj - Real.sqrt (combinedRadius ^ 2 - distLineSq)
  (startP.1 + (tContact - 0.05) * ux, startP.2 + (tContact - 0.05) * uy)

/-- Bearing (in degrees) from the robot position to an object position, as
computed by `_update_visibility` (`atan2(dx, dy)` — clockwise from the
positive y axis). -/
def bearingDeg (rpos opos : ℝ × ℝ) : ℝ :=
  atan2 (opos.1 - rpos.1) (opos.2 - rpos.2) * 180 / Real.pi

/-- Angular difference wrapped to at most `180°`. -/
def circDiff (a b : ℝ) : ℝ :=
  min (fmod360 (a - b)) (360 - fmod360 (a - b))

/-- The visibility invariant every constructed world model satisfies: the
stored `visible` flags agree with the current pose (`__init__` establishes
it and `update_from_action` re-establishes it after every pose change). -/
def visibilityCurrent (wm : WorldModel) : Prop :=
  wm.objects =
    updateVisibilityList wm.robot_position wm.robot_orientation wm.objects

end

/-- The motion-pattern-free hypothesis on an action description: none of
the three formats of `update_from_action` can derive any motion from it.
(`", then"` with either a space or a colon switches to format 2, so both
are excluded; a turn keyword only moves the robot together with some digit
in the text, a translate keyword only together with a number followed by
`m`.) -/
def noMotionText (d : String) : Prop :=
  containsStr d ", then " = false ∧
  containsStr d ", then:" = false ∧
  containsStr (lowerStr d) "navigated to" = false ∧
  (containsStr (lowerStr d) "turned right" = true → searchNat d = none) ∧
  (containsStr (lowerStr d) "turned left" = true → searchNat d = none) ∧
  (containsStr (lowerStr d) "moved forward" = true → searchNumM d = none) ∧
  (containsStr (lowerStr d) "moved backward" = true → searchNumM d = none)

/-! ## General lemmas -/

theorem sqrt_num_eval {x y : ℝ} (hy : 0 ≤ y) (h : y ^ 2 = x) :
    Real.sqrt x = y := by rw [← h, Real.sqrt_sq hy]

/-- Invocation bound for the episode loop, by induction on the remaining
turn budget. -/
theorem episodeLoop_le (env : ℕ → TurnEvent) (maxTurns : ℕ) :
    ∀ n turn_num, maxTurns + 1 - turn_num ≤ n →
      episodeLoop env maxTurns turn_num ≤ maxTurns + 1 - turn_num := by
  intro n
  induction n with
  | zero =>
    intro turn_num hn
    rw [episodeLoop]
    have : ¬ turn_num ≤ maxTurns := by omega
    simp [this]
  | succ n ih =>
    intro turn_num hn
    rw [episodeLoop]
    by_cases hle : turn_num ≤ maxTurns
    · have hrec := ih (turn_num + 1) (by omega)
      simp only [hle, if_true]
      by_cases hc : eventContinues (env turn_num) maxTurns turn_num = true
      · simp only [hc, if_true]
        omega
      · rw [Bool.not_eq_true] at hc
        simp only [hc, Bool.false_eq_true, if_false]
        omega
    · simp [hle]

/-! ## C10 — episode turn bound -/

/-- C10: for every behaviour of the robot decision agent and the simulated
user, an episode run with the default `max_turns = 6` makes at most 6
robot-decision invocations (and `max_turns` bounds the invocations for any
budget). -/
theorem episode_invocation_bound :
    (∀ env : ℕ → TurnEvent, robotInvocations env 6 ≤ 6) ∧
    (∀ (env : ℕ → TurnEvent) (maxTurns : ℕ),
      robotInvocations env maxTurns ≤ maxTurns) := by
  constructor
  · intro env
    have := episodeLoop_le env 6 6 1 (by omega)
    simpa [robotInvocations] using this
  · intro env maxTurns
    have := episodeLoop_le env maxTurns maxTurns 1 (by omega)
    calc episodeLoop env maxTurns 1 ≤ maxTurns + 1 - 1 := this
    _ = maxTurns := by omega

/-! ## C1 — collision is an absolute veto in `evaluate_task_success` -/

/-- C1: whenever the interaction log records a collision,
`evaluate_task_success` fails with `success_rate = 0` and a failure reason
naming the colliding obstacle, regardless of the world model and goal. -/
theorem collision_veto (wm : WorldModel) (goal : String)
    (log : InteractionLog) (info : CollisionInfo)
    (h : log.collision = some info) :
    (evaluate_task_success wm goal log).success = false ∧
    (evaluate_task_success wm goal log).success_rate = 0 ∧
    (evaluate_task_success wm goal log).failure_reason =
      some ("collision with obstacle: " ++ info.obstacle_name) := by
  refine ⟨?_, ?_, ?_⟩ <;> norm_num [evaluate_task_success, h]

/-- A non-obstacle cup at `(0, 0.5)` — within every navigation threshold of
a robot standing at the origin. -/
noncomputable def cupAtHalf : SceneObject :=
  { name := "cup", position := (0, 0.5), obstacle := false, radius := none,
    side := none, id := none, visible := true }

/-- World with the robot at the origin facing north and the cup in reach. -/
noncomputable def wmCup : WorldModel :=
  { robot_position := (0, 0), robot_orientation := 0,
    objects := [cupAtHalf], action_history := [] }

/-- A recorded collision with an obstacle named `box`. -/
noncomputable def infoBox : CollisionInfo :=
  { obstacle_name := "box", obstacle_position := (1, 1),
    collision_point := (0.5, 0.5), collision_message := collisionMessage "box" }

/-- An interaction log carrying that collision. -/
noncomputable def logBoxCollision : InteractionLog :=
  { turns := [], collision := some infoBox }

/-- C1 witness: the goal's navigation condition is met by the final state
(`distance 0.5 ≤ threshold 0.8`), yet the recorded collision forces
`success = false` and `success_rate = 0` with the obstacle named. -/
theorem collision_veto_witness :
    logBoxCollision.collision = some infoBox ∧
    (check_condition (Condition.navigate_to_object "cup" 0.8) wmCup
      logBoxCollision).1 = true ∧
    (evaluate_task_success wmCup "navigate to the cup" logBoxCollision).success
      = false ∧
    (evaluate_task_success wmCup "navigate to the cup"
      logBoxCollision).success_rate = 0 ∧
    (evaluate_task_success wmCup "navigate to the cup"
      logBoxCollision).failure_reason = some "collision with obstacle: box" := by
  refine ⟨rfl, ?_,
    (collision_veto wmCup "navigate to the cup" logBoxCollision infoBox rfl).1,
    (collision_veto wmCup "navigate to the cup" logBoxCollision infoBox rfl).2.1,
    ?_⟩
  · have hres : resolveTargetLoop (lowerStr "cup")
        (directionalQualifierOf (lowerStr "cup")) wmCup.objects none =
        some cupAtHalf := rfl
    have hs : Real.sqrt 0.25 = 0.5 := sqrt_num_eval (by norm_num) (by norm_num)
    have h4 : Real.sqrt 4 = 2 := sqrt_num_eval (by norm_num) (by norm_num)
    simp only [check_condition, check_navigation_to_object, hres]
    norm_num [wmCup, cupAtHalf, hs, h4]
  · have h := (collision_veto wmCup "navigate to the cup" logBoxCollision
      infoBox rfl).2.2
    simpa [infoBox] using h

/-- With no objects there is nothing to collide with. -/
theorem check_collision_on_path_nil (a b : ℝ × ℝ) :
    check_collision_on_path a b [] = none := by
  simp [check_collision_on_path, get_obstacles]

/-- Keyword blocks of format 3 all fall through when each present keyword
has no extractable number, leaving the state untouched. -/
theorem format3_noop (d dl : String) (s : WorldModel)
    (h4 : containsStr dl "turned right" = true → searchNat d = none)
    (h5 : containsStr dl "turned left" = true → searchNat d = none)
    (h6 : containsStr dl "moved forward" = true → searchNumM d = none)
    (h7 : containsStr dl "moved backward" = true → searchNumM d = none) :
    format3 d dl s = (s, none) := by
  have eTR : containsStr dl "turned right" = false ∨ searchNat d = none := by
    cases h : containsStr dl "turned right"
    · exact Or.inl rfl
    · exact Or.inr (h4 h)
  have eTL : containsStr dl "turned left" = false ∨ searchNat d = none := by
    cases h : containsStr dl "turned left"
    · exact Or.inl rfl
    · exact Or.inr (h5 h)
  have eMF : containsStr dl "moved forward" = false ∨ searchNumM d = none := by
    cases h : containsStr dl "moved forward"
    · exact Or.inl rfl
    · exact Or.inr (h6 h)
  have eMB : containsStr dl "moved backward" = false ∨ searchNumM d = none := by
    cases h : containsStr dl "moved backward"
    · exact Or.inl rfl
    · exact Or.inr (h7 h)
  rcases eTR with eTR | eTR <;> rcases eTL with eTL | eTL <;>
    rcases eMF with eMF | eMF <;> rcases eMB with eMB | eMB <;>
    simp [format3, eTR, eTL, eMF, eMB, ite_self]

/-- An action description without motion patterns only appends to the
history and rewrites visibility from the unchanged pose. -/
theorem noMotion_noop (d : String) (wm : WorldModel) (h : noMotionText d) :
    update_from_action d wm =
      ({ wm with
          action_history := wm.action_history ++ [d]
          objects := updateVisibilityList wm.robot_position
            wm.robot_orientation wm.objects }, none) := by
  obtain ⟨h1, h2, h3, h4, h5, h6, h7⟩ := h
  have hf3 := format3_noop d (lowerStr d)
    { wm with action_history := wm.action_history ++ [d] } h4 h5 h6 h7
  simp [update_from_action, h1, h2, h3, hf3]

/-- Empty world: robot at the origin facing north, no objects. -/
noncomputable def wmEmpty : WorldModel :=
  { robot_position := (0, 0), robot_orientation := 0,
    objects := [], action_history := [] }

/-- A clarify intent with the given question text. -/
def clarifyIntent (q : String) : Intent :=
  { action := some "clarify", text := some q, target_object := none,
    distance := "0", turn_degrees := "0", actions := none }

/-! ## C9 — unrecognized action text is a silent no-op -/

/-- C9: an action description matching none of the known motion patterns
(no `navigated to`, no `", then"` separator, no turn keyword with an
extractable number, no translate keyword with an extractable number)
changes neither the pose nor the objects and reports no collision (the
description is still appended to the action history, which is the log the
evaluator reads, not pose state). -/
theorem unrecognized_action_noop (d : String) (wm : WorldModel)
    (hpat : noMotionText d) (hvis : visibilityCurrent wm) :
    (update_from_action d wm).1.robot_position = wm.robot_position ∧
    (update_from_action d wm).1.robot_orientation = wm.robot_orientation ∧
    (update_from_action d wm).1.objects = wm.objects ∧
    (update_from_action d wm).2 = none := by
  rw [noMotion_noop d wm hpat]
  exact ⟨rfl, rfl, hvis.symm, rfl⟩

/-- C9 witness: a speech-only description leaves the empty world's pose
untouched and returns no collision. -/
theorem unrecognized_action_noop_witness :
    noMotionText "Misty said: 'hello there'" ∧ visibilityCurrent wmEmpty ∧
    (update_from_action "Misty said: 'hello there'" wmEmpty).1.robot_position =
      wmEmpty.robot_position ∧
    (update_from_action "Misty said: 'hello there'" wmEmpty).2 = none := by
  have hpat : noMotionText "Misty said: 'hello there'" := by
    refine ⟨by decide, by decide, by decide, ?_, ?_, ?_, ?_⟩ <;>
      (intro h; exact absurd h (by decide))
  have hvis : visibilityCurrent wmEmpty := rfl
  exact ⟨hpat, hvis,
    (unrecognized_action_noop _ wmEmpty hpat hvis).1,
    (unrecognized_action_noop _ wmEmpty hpat hvis).2.2.2⟩

/-! ## C8 — clarify intents and motion -/

/-- C8 counterexample: a clarify intent whose question text happens to
contain `navigated to … moved 2 m` *does* move the robot when its rendered
description is applied to the world model, because the rendered sentence is
re-parsed for motion patterns.  The claim's "any question text" fails. -/
theorem clarify_motion_counterexample :
    (clarifyIntent "Have you navigated to the cup and moved 2 m yet").action =
      some "clarify" ∧
    (update_from_action
        (parse_action
          (clarifyIntent "Have you navigated to the cup and moved 2 m yet"))
        wmEmpty).1.robot_position ≠ wmEmpty.robot_position := by
  refine ⟨rfl, ?_⟩
  have hD : parse_action
      (clarifyIntent "Have you navigated to the cup and moved 2 m yet") =
      "Misty asked: 'Have you navigated to the cup and moved 2 m yet'" := rfl
  rw [hD]
  have hnav : containsStr
      (lowerStr "Misty asked: 'Have you navigated to the cup and moved 2 m yet'")
      "navigated to" = true := by decide
  have hadj : searchAdjustedDeg
      "Misty asked: 'Have you navigated to the cup and moved 2 m yet'" =
      none := by decide
  have hmov : searchMovedNumM
      "Misty asked: 'Have you navigated to the cup and moved 2 m yet'" =
      some 2 := by decide
  simp only [update_from_action, hnav, if_true, format1, hadj, hmov, try_move,
    check_collision_on_path_nil, wmEmpty]
  intro hEq
  have h2 := congrArg Prod.snd hEq
  simp [Real.cos_zero] at h2

/-- C8 (amended): a clarify intent whose rendered description contains no
motion pattern — which holds for every ordinary question, since the
renderer only wraps the text as `Misty asked: '…'` — produces zero change
to `robot_position`/`robot_orientation` (and to the objects) and no
collision. -/
theorem clarify_noop (v : Intent) (wm : WorldModel)
    (_hact : v.action = some "clarify")
    (hpat : noMotionText (parse_action v)) (hvis : visibilityCurrent wm) :
    (update_from_action (parse_action v) wm).1.robot_position =
      wm.robot_position ∧
    (update_from_action (parse_action v) wm).1.robot_orientation =
      wm.robot_orientation ∧
    (update_from_action (parse_action v) wm).1.objects = wm.objects ∧
    (update_from_action (parse_action v) wm).2 = none := by
  rw [noMotion_noop _ wm hpat]
  exact ⟨rfl, rfl, hvis.symm, rfl⟩

/-- C8 witness: an ordinary clarification question moves nothing. -/
theorem clarify_noop_witness :
    (clarifyIntent "Which cup do you mean").action = some "clarify" ∧
    noMotionText (parse_action (clarifyIntent "Which cup do you mean")) ∧
    visibilityCurrent wmEmpty ∧
    (update_from_action (parse_action (clarifyIntent "Which cup do you mean"))
      wmEmpty).1.robot_position = wmEmpty.robot_position ∧
    (update_from_action (parse_action (clarifyIntent "Which cup do you mean"))
      wmEmpty).1.robot_orientation = wmEmpty.robot_orientation := by
  have hpat : noMotionText (parse_action (clarifyIntent "Which cup do you mean")) := by
    refine ⟨by decide, by decide, by decide, ?_, ?_, ?_, ?_⟩ <;>
      (intro h; exact absurd h (by decide))
  have hvis : visibilityCurrent wmEmpty := rfl
  exact ⟨rfl, hpat, hvis,
    (clarify_noop _ wmEmpty rfl hpat hvis).1,
    (clarify_noop _ wmEmpty rfl hpat hvis).2.1⟩

/-- The loop stops before processing further sub-actions once a collision
is recorded. -/
theorem runSubActions_some (ys : List String) (s : WorldModel)
    (i : CollisionInfo) : runSubActions ys s (some i) = (s, some i) := by
  cases ys <;> rfl

/-- Final visibility refresh applied by `update_from_action` to the state
produced by the dispatched format. -/
noncomputable def visibilityWrap (p : WorldModel × Option CollisionInfo) :
    WorldModel × Option CollisionInfo :=
  ({ p.1 with
      objects := updateVisibilityList p.1.robot_position
        p.1.robot_orientation p.1.objects }, p.2)

/-! ## C5 — `", then"`-joined sub-actions run in order and short-circuit -/

/-- C5: a description carrying the `", then"` separator (and not the
format-1 `navigated to` marker, which takes precedence) is split and run
through the sequential sub-action loop; processing a concatenation runs the
prefix first and continues with the suffix from the prefix's final state
only when the prefix recorded no collision (so everything after the first
collision is skipped); and one step of the loop applies the head sub-action
to the current state — in particular every turn/translate reads the
orientation current at that moment. -/
theorem multi_step_sequencing :
    (∀ (d : String) (wm : WorldModel),
      containsStr (lowerStr d) "navigated to" = false →
      (containsStr d ", then " = true ∨ containsStr d ", then:" = true) →
      update_from_action d wm =
        visibilityWrap (runSubActions (splitThen d)
          { wm with action_history := wm.action_history ++ [d] } none)) ∧
    (∀ (xs ys : List String) (s : WorldModel) (c : Option CollisionInfo),
      runSubActions (xs ++ ys) s c =
        (match (runSubActions xs s c).2 with
         | some _ => runSubActions xs s c
         | none => runSubActions ys (runSubActions xs s c).1 none)) ∧
    (∀ (sub : String) (rest : List String) (s : WorldModel),
      runSubActions (sub :: rest) s none =
        runSubActions rest (applySubAction sub s).1 (applySubAction sub s).2) := by
  refine ⟨?_, ?_, ?_⟩
  · intro d wm h1 h2
    simp only [update_from_action, h1, visibilityWrap]
    rcases h2 with h2 | h2 <;> simp [h2]
  · intro xs
    induction xs with
    | nil =>
      intro ys s c
      cases c with
      | none => simp [runSubActions]
      | some i => simp [runSubActions, runSubActions_some]
    | cons x xs ih =>
      intro ys s c
      cases c with
      | none =>
        simp only [List.cons_append, runSubActions]
        exact ih ys (applySubAction x s).1 (applySubAction x s).2
      | some i => simp [runSubActions]
  · intro sub rest s
    rfl

/-- C5 witness: a concrete turn-then-move description goes through the
sequential sub-action loop. -/
theorem multi_step_sequencing_witness :
    containsStr
      (lowerStr "Misty executed: turned left 90°, then moved forward 1m")
      "navigated to" = false ∧
    containsStr "Misty executed: turned left 90°, then moved forward 1m"
      ", then " = true ∧
    update_from_action "Misty executed: turned left 90°, then moved forward 1m"
        wmEmpty =
      visibilityWrap (runSubActions
        (splitThen "Misty executed: turned left 90°, then moved forward 1m")
        { wmEmpty with
            action_history := wmEmpty.action_history ++
              ["Misty executed: turned left 90°, then moved forward 1m"] }
        none) :=
  ⟨by decide, by decide,
    multi_step_sequencing.1 _ wmEmpty (by decide) (Or.inl (by decide))⟩

/-! ## C6 — target extraction precedence -/

/-- C6: exact multi-word named targets win before directional, positional or
generic parsing, and the closed adjective list is consulted before
positional extraction: the goal about the red cup resolves to `red cup`
(not `left cup`), and `the middle water bottle` resolves to
`center bottle` (not `middle water`). -/
theorem target_extraction_precedence :
    parse_goal_conditions "Navigate to the red cup (the one on the left side)"
      = [Condition.navigate_to_object "red cup" 0.8] ∧
    parse_goal_conditions "Navigate to the middle water bottle"
      = [Condition.navigate_to_object "center bottle" 0.8] ∧
    extract_target_from_goal
      (lowerStr "Navigate to the red cup (the one on the left side)")
      = some "red cup" ∧
    extract_target_from_goal (lowerStr "Navigate to the middle water bottle")
      = some "center bottle" :=
  ⟨rfl, rfl, rfl, rfl⟩

/-! ## C3 — conjunctive goal contract and success rate -/

/-- An interaction log with no turns and no collision. -/
def logEmpty : InteractionLog := { turns := [], collision := none }

/-- The met-condition counter agrees with `countP`. -/
theorem evalConditionsLoop_count (wm : WorldModel) (log : InteractionLog) :
    ∀ cs : List Condition, (evalConditionsLoop wm log cs).1 =
      cs.countP (fun c => (check_condition c wm log).1) := by
  intro cs
  induction cs with
  | nil => simp [evalConditionsLoop]
  | cons c rest ih =>
    simp only [evalConditionsLoop, List.countP_cons]
    cases hc : (check_condition c wm log).1 <;> simp [hc, ih]

/-- Without a collision, success holds exactly when every parsed condition
is met. -/
theorem success_iff_all (wm : WorldModel) (goal : String)
    (log : InteractionLog) (hcol : log.collision = none) :
    ((evaluate_task_success wm goal log).success = true ↔
      ∀ c ∈ parse_goal_conditions goal, (check_condition c wm log).1 = true) := by
  simp only [evaluate_task_success, hcol]
  rw [beq_iff_eq, evalConditionsLoop_count]
  exact List.countP_eq_length

/-- Without a collision, the reported rate is met/total (0 for 0 total). -/
theorem rate_eq (wm : WorldModel) (goal : String) (log : InteractionLog)
    (hcol : log.collision = none) :
    (evaluate_task_success wm goal log).success_rate =
      (if 0 < (parse_goal_conditions goal).length then
        ((parse_goal_conditions goal).countP
          (fun c => (check_condition c wm log).1) : ℚ) /
          (parse_goal_conditions goal).length
       else 0) := by
  simp only [evaluate_task_success, hcol]
  rw [evalConditionsLoop_count]
  norm_num

/-- C3: with a collision-free log, `evaluate_task_success` succeeds iff
every parsed goal condition is met and reports `success_rate` = met/total
(0 for the 0/0 fallback); concretely, the two-condition goal
`check the desk and navigate to the cup` with only the navigation condition
met yields `success = false` at rate `1/2`, and the condition-free goal
`hello` yields the vacuous `success = true` at rate `0`. -/
theorem conjunctive_goal_contract :
    (∀ (wm : WorldModel) (goal : String) (log : InteractionLog),
      log.collision = none →
      ((evaluate_task_success wm goal log).success = true ↔
        ∀ c ∈ parse_goal_conditions goal, (check_condition c wm log).1 = true) ∧
      (evaluate_task_success wm goal log).success_rate =
        (if 0 < (parse_goal_conditions goal).length then
          ((parse_goal_conditions goal).countP
            (fun c => (check_condition c wm log).1) : ℚ) /
            (parse_goal_conditions goal).length
         else 0)) ∧
    ((evaluate_task_success wmCup "check the desk and navigate to the cup"
        logEmpty).success = false ∧
      (evaluate_task_success wmCup "check the desk and navigate to the cup"
        logEmpty).success_rate = 1/2) ∧
    ((evaluate_task_success wmCup "hello" logEmpty).success = true ∧
      (evaluate_task_success wmCup "hello" logEmpty).success_rate = 0) := by
  refine ⟨fun wm goal log hcol =>
    ⟨success_iff_all wm goal log hcol, rate_eq wm goal log hcol⟩, ⟨?_, ?_⟩, ?_, ?_⟩
  · have hparse : parse_goal_conditions "check the desk and navigate to the cup" =
      [Condition.perceptual_task "check the desk and navigate to the cup",
       Condition.navigate_to_object "cup" 2.0] := rfl
    have hperc : check_condition
        (Condition.perceptual_task "check the desk and navigate to the cup")
        wmCup logEmpty =
        (false,
         some "Did not perform describe/observation action or provide perceptual answer") :=
      rfl
    have hiff := success_iff_all wmCup "check the desk and navigate to the cup"
      logEmpty rfl
    rw [hparse] at hiff
    cases hb : (evaluate_task_success wmCup
        "check the desk and navigate to the cup" logEmpty).success
    · rfl
    · have hall := hiff.mp hb
      have hmem := hall (Condition.perceptual_task
        "check the desk and navigate to the cup") (by simp)
      rw [hperc] at hmem
      exact absurd hmem (by simp)
  · have hparse : parse_goal_conditions "check the desk and navigate to the cup" =
      [Condition.perceptual_task "check the desk and navigate to the cup",
       Condition.navigate_to_object "cup" 2.0] := rfl
    have hperc : check_condition
        (Condition.perceptual_task "check the desk and navigate to the cup")
        wmCup logEmpty =
        (false,
         some "Did not perform describe/observation action or provide perceptual answer") :=
      rfl
    have hres : resolveTargetLoop (lowerStr "cup")
        (directionalQualifierOf (lowerStr "cup")) wmCup.objects none =
        some cupAtHalf := rfl
    have hs : Real.sqrt 0.25 = 0.5 := sqrt_num_eval (by norm_num) (by norm_num)
    have h4 : Real.sqrt 4 = 2 := sqrt_num_eval (by norm_num) (by norm_num)
    have hnav : check_condition (Condition.navigate_to_object "cup" 2.0) wmCup
        logEmpty = (true, none) := by
      simp only [check_condition, check_navigation_to_object, hres]
      norm_num [wmCup, cupAtHalf, hs, h4]
    have hr := rate_eq wmCup "check the desk and navigate to the cup"
      logEmpty rfl
    rw [hparse] at hr
    rw [hr]
    simp [List.countP_cons, hperc, hnav]
  · rfl
  · have hr := rate_eq wmCup "hello" logEmpty rfl
    have hparse : parse_goal_conditions "hello" = [] := rfl
    rw [hparse] at hr
    simpa using hr

/-- C3 witness: the general contract applied at the vacuous goal. -/
theorem conjunctive_goal_contract_witness :
    logEmpty.collision = none ∧
    ((evaluate_task_success wmCup "hello" logEmpty).success = true ↔
      ∀ c ∈ parse_goal_conditions "hello",
        (check_condition c wmCup logEmpty).1 = true) :=
  ⟨rfl, (conjunctive_goal_contract.1 wmCup "hello" logEmpty rfl).1⟩

/-! ## C2 — segment/obstacle collision criterion -/

/-- `(if P then some x else none).isSome` decides `P`. -/
theorem isSome_ite {α : Type} (P : Prop) [Decidable P] (x : α) :
    ((if P then some x else none).isSome = true) ↔ P := by
  split_ifs with h <;> simp [h]

/-- The spec-side closest point, rewritten into the branch form the source
computes (start point, end point, or interior projection). -/
theorem segClosestPoint_explicit (s e p : ℝ × ℝ)
    (hL : Real.sqrt ((e.1 - s.1) ^ 2 + (e.2 - s.2) ^ 2) ≠ 0) :
    segClosestPoint s e p =
      ((if (p.1 - s.1) * ((e.1 - s.1) / Real.sqrt ((e.1 - s.1) ^ 2 + (e.2 - s.2) ^ 2)) +
            (p.2 - s.2) * ((e.2 - s.2) / Real.sqrt ((e.1 - s.1) ^ 2 + (e.2 - s.2) ^ 2)) < 0 then s.1
        else if (p.1 - s.1) * ((e.1 - s.1) / Real.sqrt ((e.1 - s.1) ^ 2 + (e.2 - s.2) ^ 2)) +
            (p.2 - s.2) * ((e.2 - s.2) / Real.sqrt ((e.1 - s.1) ^ 2 + (e.2 - s.2) ^ 2)) >
            Real.sqrt ((e.1 - s.1) ^ 2 + (e.2 - s.2) ^ 2) then e.1
        else s.1 + ((p.1 - s.1) * ((e.1 - s.1) / Real.sqrt ((e.1 - s.1) ^ 2 + (e.2 - s.2) ^ 2)) +
            (p.2 - s.2) * ((e.2 - s.2) / Real.sqrt ((e.1 - s.1) ^ 2 + (e.2 - s.2) ^ 2))) *
            ((e.1 - s.1) / Real.sqrt ((e.1 - s.1) ^ 2 + (e.2 - s.2) ^ 2))),
       (if (p.1 - s.1) * ((e.1 - s.1) / Real.sqrt ((e.1 - s.1) ^ 2 + (e.2 - s.2) ^ 2)) +
            (p.2 - s.2) * ((e.2 - s.2) / Real.sqrt ((e.1 - s.1) ^ 2 + (e.2 - s.2) ^ 2)) < 0 then s.2
        else if (p.1 - s.1) * ((e.1 - s.1) / Real.sqrt ((e.1 - s.1) ^ 2 + (e.2 - s.2) ^ 2)) +
            (p.2 - s.2) * ((e.2 - s.2) / Real.sqrt ((e.1 - s.1) ^ 2 + (e.2 - s.2) ^ 2)) >
            Real.sqrt ((e.1 - s.1) ^ 2 + (e.2 - s.2) ^ 2) then e.2
        else s.2 + ((p.1 - s.1) * ((e.1 - s.1) / Real.sqrt ((e.1 - s.1) ^ 2 + (e.2 - s.2) ^ 2)) +
            (p.2 - s.2) * ((e.2 - s.2) / Real.sqrt ((e.1 - s.1) ^ 2 + (e.2 - s.2) ^ 2))) *
            ((e.2 - s.2) / Real.sqrt ((e.1 - s.1) ^ 2 + (e.2 - s.2) ^ 2)))) := by
  simp only [segClosestPoint]
  have hLpos : 0 < Real.sqrt ((e.1 - s.1) ^ 2 + (e.2 - s.2) ^ 2) :=
    lt_of_le_of_ne (Real.sqrt_nonneg _) (Ne.symm hL)
  set L := Real.sqrt ((e.1 - s.1) ^ 2 + (e.2 - s.2) ^ 2) with hLdef
  have hproj : ((p.1 - s.1) * (e.1 - s.1) + (p.2 - s.2) * (e.2 - s.2)) / L =
      (p.1 - s.1) * ((e.1 - s.1) / L) + (p.2 - s.2) * ((e.2 - s.2) / L) := by
    field_simp
  rw [hproj]
  set proj := (p.1 - s.1) * ((e.1 - s.1) / L) + (p.2 - s.2) * ((e.2 - s.2) / L)
    with hprojdef
  rcases lt_or_le proj 0 with hc | hc
  · have ht : max 0 (min proj L) = 0 := by
      rw [min_eq_left (le_trans (le_of_lt hc) (le_of_lt hLpos))]
      exact max_eq_left (le_of_lt hc)
    rw [ht, if_pos hc, if_pos hc]
    simp
  · by_cases hgt : proj > L
    · have ht : max 0 (min proj L) = L := by
        rw [min_eq_right (le_of_lt hgt)]
        exact max_eq_right (le_of_lt hLpos)
      rw [ht]
      have hnl : ¬ proj < 0 := not_lt.mpr hc
      rw [if_neg hnl, if_neg hnl, if_pos hgt, if_pos hgt]
      have e1 : s.1 + L * ((e.1 - s.1) / L) = e.1 := by field_simp
      have e2 : s.2 + L * ((e.2 - s.2) / L) = e.2 := by field_simp
      rw [e1, e2]
    · have ht : max 0 (min proj L) = proj := by
        rw [min_eq_left (not_lt.mp hgt)]
        exact max_eq_right hc
      rw [ht]
      have hnl : ¬ proj < 0 := not_lt.mpr hc
      rw [if_neg hnl, if_neg hnl, if_neg hgt, if_neg hgt]

/-- The per-obstacle loop body detects a collision exactly when the
centre's distance to the closest point of the segment is below the
combined radius. -/
theorem collisionForObstacle_isSome (s e : ℝ × ℝ) (o : SceneObject)
    (hL : Real.sqrt ((e.1 - s.1) ^ 2 + (e.2 - s.2) ^ 2) ≠ 0) :
    ((collisionForObstacle s e (Real.sqrt ((e.1 - s.1) ^ 2 + (e.2 - s.2) ^ 2))
        ((e.1 - s.1) / Real.sqrt ((e.1 - s.1) ^ 2 + (e.2 - s.2) ^ 2))
        ((e.2 - s.2) / Real.sqrt ((e.1 - s.1) ^ 2 + (e.2 - s.2) ^ 2)) o).isSome
      = true) ↔
    segDist s e o.position < ROBOT_RADIUS + o.radius.getD OBSTACLE_RADIUS := by
  simp only [collisionForObstacle, segDist]
  rw [segClosestPoint_explicit s e o.position hL, isSome_ite]

/-- The obstacle loop fires exactly when some obstacle in the list is hit. -/
theorem firstCollision_isSome (s e : ℝ × ℝ) (L ux uy : ℝ) :
    ∀ obstacles : List SceneObject,
      ((firstCollision s e L ux uy obstacles).isSome = true ↔
        ∃ o ∈ obstacles, (collisionForObstacle s e L ux uy o).isSome = true) := by
  intro obstacles
  induction obstacles with
  | nil => simp [firstCollision]
  | cons o rest ih =>
    simp only [firstCollision]
    cases hc : collisionForObstacle s e L ux uy o with
    | some c => simp [hc]
    | none => simp [hc, ih]

/-- Obstacle flagged and sitting on the path midpoint (spec test case). -/
noncomputable def obstacleMid : SceneObject :=
  { name := "box", position := (0, 1), obstacle := true, radius := none,
    side := none, id := none, visible := true }

/-- Obstacle flagged but 0.5 off the path (spec test case). -/
noncomputable def obstacleSide : SceneObject :=
  { name := "box", position := (0.5, 1), obstacle := true, radius := none,
    side := none, id := none, visible := true }

/-- Obstacle overlapping the robot's start position. -/
noncomputable def obstacleAtOrigin : SceneObject :=
  { name := "box", position := (0, 0), obstacle := true, radius := none,
    side := none, id := none, visible := true }

/-- C2 (amended): provided the start-to-candidate segment is at least the
`0.01` no-movement guard long, a translate detects a collision iff some
object flagged as an obstacle has its centre closer to the segment's
closest point than the combined radius (non-obstacles never block); the
spec's two concrete cases hold: the obstacle at `(0,1)` collides on the
`(0,0)→(0,2)` move and the obstacle at `(0.5,1)` does not. -/
theorem collision_detection_iff :
    (∀ (s e : ℝ × ℝ) (objects : List SceneObject),
      0.01 ≤ Real.sqrt ((e.1 - s.1) ^ 2 + (e.2 - s.2) ^ 2) →
      ((check_collision_on_path s e objects).isSome = true ↔
        ∃ o ∈ objects, o.obstacle = true ∧
          segDist s e o.position <
            ROBOT_RADIUS + o.radius.getD OBSTACLE_RADIUS)) ∧
    (check_collision_on_path ((0:ℝ), (0:ℝ)) ((0:ℝ), (2:ℝ))
      [obstacleMid]).isSome = true ∧
    (check_collision_on_path ((0:ℝ), (0:ℝ)) ((0:ℝ), (2:ℝ))
      [obstacleSide]).isSome = false := by
  have h4 : Real.sqrt 4 = 2 := sqrt_num_eval (by norm_num) (by norm_num)
  have hgen : ∀ (s e : ℝ × ℝ) (objects : List SceneObject),
      0.01 ≤ Real.sqrt ((e.1 - s.1) ^ 2 + (e.2 - s.2) ^ 2) →
      ((check_collision_on_path s e objects).isSome = true ↔
        ∃ o ∈ objects, o.obstacle = true ∧
          segDist s e o.position <
            ROBOT_RADIUS + o.radius.getD OBSTACLE_RADIUS) := by
    intro s e objects hlen
    have hLpos : (0:ℝ) < Real.sqrt ((e.1 - s.1) ^ 2 + (e.2 - s.2) ^ 2) :=
      lt_of_lt_of_le (by norm_num) hlen
    have hL : Real.sqrt ((e.1 - s.1) ^ 2 + (e.2 - s.2) ^ 2) ≠ 0 :=
      ne_of_gt hLpos
    simp only [check_collision_on_path]
    by_cases hobs : (get_obstacles objects).isEmpty
    · rw [if_pos hobs]
      have hnil : get_obstacles objects = [] := List.isEmpty_iff.mp hobs
      simp only [Option.isSome_none, Bool.false_eq_true, false_iff]
      rintro ⟨o, ho, hob, _⟩
      have hmem : o ∈ get_obstacles objects :=
        List.mem_filter.mpr ⟨ho, by simp [hob]⟩
      rw [hnil] at hmem
      exact absurd hmem (List.not_mem_nil o)
    · rw [if_neg hobs]
      have hnl : ¬ (Real.sqrt ((e.1 - s.1) ^ 2 + (e.2 - s.2) ^ 2) < 0.01) :=
        not_lt.mpr hlen
      rw [if_neg hnl]
      rw [firstCollision_isSome]
      constructor
      · rintro ⟨o, ho, hc⟩
        have hm := List.mem_filter.mp ho
        exact ⟨o, hm.1, by simpa using hm.2,
          (collisionForObstacle_isSome s e o hL).mp hc⟩
      · rintro ⟨o, ho, hob, hd⟩
        exact ⟨o, List.mem_filter.mpr ⟨ho, by simp [hob]⟩,
          (collisionForObstacle_isSome s e o hL).mpr hd⟩
  refine ⟨hgen, ?_, ?_⟩
  · rw [hgen ((0:ℝ), (0:ℝ)) ((0:ℝ), (2:ℝ)) [obstacleMid] (by norm_num [h4])]
    refine ⟨obstacleMid, by simp, rfl, ?_⟩
    have hseg : segDist ((0:ℝ), (0:ℝ)) ((0:ℝ), (2:ℝ)) obstacleMid.position = 0 := by
      norm_num [segDist, segClosestPoint, obstacleMid, h4]
    rw [hseg]
    norm_num [obstacleMid, ROBOT_RADIUS, OBSTACLE_RADIUS]
  · have hiff := hgen ((0:ℝ), (0:ℝ)) ((0:ℝ), (2:ℝ)) [obstacleSide]
      (by norm_num [h4])
    cases hb : (check_collision_on_path ((0:ℝ), (0:ℝ)) ((0:ℝ), (2:ℝ))
        [obstacleSide]).isSome
    · rfl
    · exfalso
      obtain ⟨o, ho, _, hd⟩ := hiff.mp hb
      have ho' : o = obstacleSide := by simpa using ho
      subst ho'
      have hq : Real.sqrt 0.25 = 0.5 := sqrt_num_eval (by norm_num) (by norm_num)
      have hseg : segDist ((0:ℝ), (0:ℝ)) ((0:ℝ), (2:ℝ)) obstacleSide.position
          = 0.5 := by
        norm_num [segDist, segClosestPoint, obstacleSide, h4, hq]
      rw [hseg] at hd
      norm_num [obstacleSide, ROBOT_RADIUS, OBSTACLE_RADIUS] at hd

/-- C2 counterexample to the unguarded claim: a `0.005`-long translate
starting inside an obstacle's combined radius is not detected as a
collision, because `_check_collision_on_path` returns early on paths
shorter than `0.01` — even though the obstacle's centre is at distance `0`
from the closest point of the segment. -/
theorem collision_guard_counterexample :
    check_collision_on_path ((0:ℝ), (0:ℝ)) ((0:ℝ), (0.005:ℝ))
      [obstacleAtOrigin] = none ∧
    obstacleAtOrigin.obstacle = true ∧
    segDist ((0:ℝ), (0:ℝ)) ((0:ℝ), (0.005:ℝ)) obstacleAtOrigin.position <
      ROBOT_RADIUS + obstacleAtOrigin.radius.getD OBSTACLE_RADIUS := by
  have hp : Real.sqrt 0.000025 = 0.005 := sqrt_num_eval (by norm_num) (by norm_num)
  have hw : Real.sqrt 40000 = 200 := sqrt_num_eval (by norm_num) (by norm_num)
  refine ⟨?_, rfl, ?_⟩
  · simp only [check_collision_on_path]
    norm_num [get_obstacles, obstacleAtOrigin, hp, hw]
  · norm_num [segDist, segClosestPoint, obstacleAtOrigin, hp, hw,
      ROBOT_RADIUS, OBSTACLE_RADIUS]

/-- C2 witness: the general criterion applied to the spec's colliding
case. -/
theorem collision_detection_iff_witness :
    0.01 ≤ Real.sqrt ((((0:ℝ), (2:ℝ)).1 - ((0:ℝ), (0:ℝ)).1) ^ 2 +
      (((0:ℝ), (2:ℝ)).2 - ((0:ℝ), (0:ℝ)).2) ^ 2) ∧
    ((check_collision_on_path ((0:ℝ), (0:ℝ)) ((0:ℝ), (2:ℝ))
        [obstacleMid]).isSome = true ↔
      ∃ o ∈ [obstacleMid], o.obstacle = true ∧
        segDist ((0:ℝ), (0:ℝ)) ((0:ℝ), (2:ℝ)) o.position <
          ROBOT_RADIUS + o.radius.getD OBSTACLE_RADIUS) := by
  have h4 : Real.sqrt 4 = 2 := sqrt_num_eval (by norm_num) (by norm_num)
  exact ⟨by norm_num [h4],
    collision_detection_iff.1 ((0:ℝ), (0:ℝ)) ((0:ℝ), (2:ℝ)) [obstacleMid]
      (by norm_num [h4])⟩

/-! ## C4 — post-collision stop point -/

/-- Obstacle flagged, slightly off the path axis (an off-centre hit). -/
noncomputable def obstacleOff : SceneObject :=
  { name := "box", position := (0.12, 1), obstacle := true, radius := none,
    side := none, id := none, visible := true }

/-- World with the robot at the origin and the off-centre obstacle. -/
noncomputable def wmOff : WorldModel :=
  { robot_position := (0, 0), robot_orientation := 0,
    objects := [obstacleOff], action_history := [] }

/-- C4: evaluation at the failing input.  The source backs up from the
*closest-approach* point by `combined_radius - dist + 0.05`, which equals
"0.05 short of first contact" only for head-on hits.  For the off-centre
hit here the code stops the robot at `(0, 0.87)` — past the true first
contact point `(0, 0.84)` and still inside the combined radius (distance
`√0.0313 < 0.2` to the obstacle centre, i.e. interpenetrating), while the
spec's "0.05 short of first contact" point is `(0, 0.79)`.  The
`CollisionInfo` payload (name, obstacle position, stop point, message) and
the robot's position being set to the stop point are as claimed. -/
theorem collision_point_code_bug :
    check_collision_on_path ((0:ℝ), (0:ℝ)) ((0:ℝ), (2:ℝ)) [obstacleOff] =
      some { obstacle_name := "box", obstacle_position := (0.12, 1),
             collision_point := (0, 0.87),
             collision_message := collisionMessage "box" } ∧
    (try_move 2 0 wmOff).1.robot_position = ((0:ℝ), (0.87:ℝ)) ∧
    specFirstContactStop ((0:ℝ), (0:ℝ)) ((0:ℝ), (2:ℝ)) ((0.12:ℝ), (1:ℝ)) 0.2 =
      (0, 0.79) ∧
    ((0:ℝ), (0.87:ℝ)) ≠
      specFirstContactStop ((0:ℝ), (0:ℝ)) ((0:ℝ), (2:ℝ)) ((0.12:ℝ), (1:ℝ)) 0.2 ∧
    Real.sqrt (((0:ℝ) - 0.12) ^ 2 + ((0.87:ℝ) - 1) ^ 2) <
      ROBOT_RADIUS + OBSTACLE_RADIUS := by
  have h4 : Real.sqrt 4 = 2 := sqrt_num_eval (by norm_num) (by norm_num)
  have h9 : Real.sqrt 9 = 3 := sqrt_num_eval (by norm_num) (by norm_num)
  have h16 : Real.sqrt 16 = 4 := sqrt_num_eval (by norm_num) (by norm_num)
  have h625 : Real.sqrt 625 = 25 := sqrt_num_eval (by norm_num) (by norm_num)
  have hmain : check_collision_on_path ((0:ℝ), (0:ℝ)) ((0:ℝ), (2:ℝ)) [obstacleOff] =
      some { obstacle_name := "box", obstacle_position := (0.12, 1),
             collision_point := (0, 0.87),
             collision_message := collisionMessage "box" } := by
    simp only [check_collision_on_path, get_obstacles, firstCollision,
      collisionForObstacle, obstacleOff]
    norm_num [h4, h9, h625, ROBOT_RADIUS, OBSTACLE_RADIUS, collisionMessage]
  have hspec : specFirstContactStop ((0:ℝ), (0:ℝ)) ((0:ℝ), (2:ℝ))
      ((0.12:ℝ), (1:ℝ)) 0.2 = (0, 0.79) := by
    norm_num [specFirstContactStop, h4, h16, h625]
  refine ⟨hmain, ?_, hspec, ?_, ?_⟩
  · have hmain0 : check_collision_on_path (0 : ℝ × ℝ) ((0:ℝ), (2:ℝ))
        [obstacleOff] =
        some { obstacle_name := "box", obstacle_position := (0.12, 1),
               collision_point := (0, 0.87),
               collision_message := collisionMessage "box" } := hmain
    simp only [try_move, wmOff]
    norm_num [Real.sin_zero, Real.cos_zero]
    rw [hmain0]
    norm_num
  · rw [hspec]
    intro h
    have h2 := congrArg Prod.snd h
    norm_num at h2
  · rw [Real.sqrt_lt' (by norm_num [ROBOT_RADIUS, OBSTACLE_RADIUS])]
    norm_num [ROBOT_RADIUS, OBSTACLE_RADIUS]

/-- Python float modulo lies in `[0, 360)`. -/
theorem fmod360_nonneg (x : ℝ) : 0 ≤ fmod360 x := by
  have h := Int.floor_le (x / 360)
  have h2 : (360:ℝ) * ⌊x / 360⌋ ≤ x := by
    have h3 := mul_le_mul_of_nonneg_left h (by norm_num : (0:ℝ) ≤ 360)
    calc (360:ℝ) * ⌊x / 360⌋ ≤ 360 * (x / 360) := h3
    _ = x := by ring
  simp only [fmod360]
  linarith

theorem fmod360_lt (x : ℝ) : fmod360 x < 360 := by
  have h := Int.lt_floor_add_one (x / 360)
  have h2 : x < 360 * ⌊x / 360⌋ + 360 := by
    have h3 := mul_lt_mul_of_pos_left h (by norm_num : (0:ℝ) < 360)
    calc x = 360 * (x / 360) := by ring
    _ < 360 * (⌊x / 360⌋ + 1) := h3
    _ = 360 * ⌊x / 360⌋ + 360 := by ring
  simp only [fmod360]
  linarith

/-- Modulo is the identity on `[0, 360)`. -/
theorem fmod360_eq_self {x : ℝ} (h0 : 0 ≤ x) (h1 : x < 360) : fmod360 x = x := by
  have hf : ⌊x / 360⌋ = 0 := by
    rw [Int.floor_eq_zero_iff, Set.mem_Ico]
    constructor
    · positivity
    · rw [div_lt_one (by norm_num : (0:ℝ) < 360)]
      exact h1
  simp [fmod360, hf]

/-- Modulo shifts `(-360, 0)` up by one period. -/
theorem fmod360_neg_range {x : ℝ} (h0 : -360 < x) (h1 : x < 0) :
    fmod360 x = x + 360 := by
  have hf : ⌊x / 360⌋ = -1 := by
    rw [Int.floor_eq_iff]
    constructor
    · push_cast
      rw [le_div_iff₀ (by norm_num : (0:ℝ) < 360)]
      linarith
    · push_cast
      rw [div_lt_iff₀ (by norm_num : (0:ℝ) < 360)]
      linarith
  rw [fmod360, hf]
  push_cast
  ring

/-- Modulo is invariant under shifting by whole periods. -/
theorem fmod360_sub_int (x : ℝ) (k : ℤ) : fmod360 (x - 360 * k) = fmod360 x := by
  simp only [fmod360]
  have hq : (x - 360 * k) / 360 = x / 360 - k := by
    field_simp
  rw [hq, Int.floor_sub_int]
  push_cast
  ring

/-- The source's wrap of the difference of normalized angles computes the
spec's circular angular distance. -/
theorem wrapDiff_eq_circDiff (a b : ℝ) :
    (if |fmod360 a - fmod360 b| > 180 then 360 - |fmod360 a - fmod360 b|
     else |fmod360 a - fmod360 b|) = circDiff a b := by
  have hα0 : 0 ≤ fmod360 a := fmod360_nonneg a
  have hα1 : fmod360 a < 360 := fmod360_lt a
  have hβ0 : 0 ≤ fmod360 b := fmod360_nonneg b
  have hβ1 : fmod360 b < 360 := fmod360_lt b
  have hshift : fmod360 (a - b) = fmod360 (fmod360 a - fmod360 b) := by
    have h1 : fmod360 a - fmod360 b =
        (a - b) - 360 * ((⌊a / 360⌋ - ⌊b / 360⌋ : ℤ) : ℝ) := by
      simp only [fmod360]
      push_cast
      ring
    rw [h1, fmod360_sub_int]
  rw [circDiff, hshift]
  set α := fmod360 a
  set β := fmod360 b
  rcases le_or_lt β α with hc | hc
  · have he : fmod360 (α - β) = α - β :=
      fmod360_eq_self (by linarith) (by linarith)
    rw [he, abs_of_nonneg (by linarith : (0:ℝ) ≤ α - β)]
    rcases le_or_lt (α - β) 180 with hd | hd
    · rw [if_neg (not_lt.mpr hd), min_eq_left (by linarith)]
    · rw [if_pos hd, min_eq_right (by linarith)]
  · have he : fmod360 (α - β) = (α - β) + 360 :=
      fmod360_neg_range (by linarith) (by linarith)
    rw [he, abs_of_neg (by linarith : α - β < 0)]
    rcases le_or_lt (-(α - β)) 180 with hd | hd
    · rw [if_neg (not_lt.mpr hd), min_eq_right (by linarith)]
      ring
    · rw [if_pos hd, min_eq_left (by linarith)]
      ring

/-- The visibility flag holds exactly on the range-and-cone criterion. -/
theorem visibleFlag_iff (rpos : ℝ × ℝ) (rori : ℝ) (opos : ℝ × ℝ) :
    (visibleFlag rpos rori opos = true) ↔
      (Real.sqrt ((opos.1 - rpos.1) ^ 2 + (opos.2 - rpos.2) ^ 2) ≤ MAX_DISTANCE ∧
       circDiff (bearingDeg rpos opos) rori ≤ FOV_ANGLE / 2) := by
  simp only [visibleFlag, bearingDeg]
  by_cases hd : Real.sqrt ((opos.1 - rpos.1) ^ 2 + (opos.2 - rpos.2) ^ 2) >
      MAX_DISTANCE
  · rw [if_pos hd]
    simp [not_le.mpr hd]
  · rw [if_neg hd]
    rw [wrapDiff_eq_circDiff (atan2 (opos.1 - rpos.1) (opos.2 - rpos.2) * 180 /
      Real.pi) rori]
    simp [decide_eq_true_eq, not_lt.mp hd]

/-- Every object written by `_update_visibility` carries the flag computed
from the given pose at its own position. -/
theorem updateVisList_mem (p : ℝ × ℝ) (ori : ℝ) (objs : List SceneObject)
    (o : SceneObject) (ho : o ∈ updateVisibilityList p ori objs) :
    o.visible = visibleFlag p ori o.position := by
  obtain ⟨orig, _, rfl⟩ := List.mem_map.mp ho
  rfl

/-- Visibility of an object at distance 10 on the ray `c` degrees clockwise
from north, robot at the origin facing north: visible exactly when `c` is
within half the field of view. -/
theorem visibleFlag_ray (c : ℝ) (h0 : 0 < c) (h90 : c < 90) :
    (visibleFlag ((0:ℝ), (0:ℝ)) 0
      (10 * Real.sin (c * Real.pi / 180), 10 * Real.cos (c * Real.pi / 180))
      = true) ↔ c ≤ 60 := by
  have hπ := Real.pi_pos
  have hθlt : c * Real.pi / 180 < Real.pi / 2 := by nlinarith
  have hθpos : 0 < c * Real.pi / 180 := by positivity
  have hcos : 0 < Real.cos (c * Real.pi / 180) :=
    Real.cos_pos_of_mem_Ioo ⟨by linarith, hθlt⟩
  rw [visibleFlag_iff]
  have hdist : Real.sqrt ((10 * Real.sin (c * Real.pi / 180) - 0) ^ 2 +
      (10 * Real.cos (c * Real.pi / 180) - 0) ^ 2) = 10 := by
    have hs : (10 * Real.sin (c * Real.pi / 180) - 0) ^ 2 +
        (10 * Real.cos (c * Real.pi / 180) - 0) ^ 2 = 100 := by
      have hpyth := Real.sin_sq_add_cos_sq (c * Real.pi / 180)
      nlinarith
    rw [hs]
    exact sqrt_num_eval (by norm_num) (by norm_num)
  have hb : bearingDeg ((0:ℝ), (0:ℝ))
      (10 * Real.sin (c * Real.pi / 180), 10 * Real.cos (c * Real.pi / 180))
      = c := by
    simp only [bearingDeg, atan2]
    rw [if_pos (by simpa using by positivity : (0:ℝ) <
      10 * Real.cos (c * Real.pi / 180) - 0)]
    have hq : (10 * Real.sin (c * Real.pi / 180) - 0) /
        (10 * Real.cos (c * Real.pi / 180) - 0) =
        Real.tan (c * Real.pi / 180) := by
      rw [Real.tan_eq_sin_div_cos]
      field_simp
      ring
    rw [hq, Real.arctan_tan (by linarith) hθlt]
    field_simp
  rw [hdist, hb]
  have hcd : circDiff c 0 = c := by
    rw [circDiff, show c - 0 = c from by ring,
      fmod360_eq_self (le_of_lt h0) (by linarith)]
    exact min_eq_left (by linarith)
  rw [hcd]
  simp [MAX_DISTANCE, FOV_ANGLE]
  norm_num

/-! ## C7 — visibility cone -/

/-- C7: an object is marked visible iff it is within `10.0` units and the
angular difference between its bearing and the robot orientation, wrapped
to at most `180`, is at most `60` (half the `120` field of view); after
every `update_from_action` the stored flags are exactly these; and at
distance 10 an object `60` degrees off-axis is visible while one at
`60.001` degrees is not. -/
theorem visibility_cone :
    (∀ (rpos : ℝ × ℝ) (rori : ℝ) (opos : ℝ × ℝ),
      (visibleFlag rpos rori opos = true) ↔
        (Real.sqrt ((opos.1 - rpos.1) ^ 2 + (opos.2 - rpos.2) ^ 2) ≤
            MAX_DISTANCE ∧
         circDiff (bearingDeg rpos opos) rori ≤ FOV_ANGLE / 2)) ∧
    (∀ (d : String) (wm : WorldModel) (o : SceneObject),
      o ∈ ((update_from_action d wm).1).objects →
      o.visible = visibleFlag ((update_from_action d wm).1).robot_position
        ((update_from_action d wm).1).robot_orientation o.position) ∧
    visibleFlag ((0:ℝ), (0:ℝ)) 0
      (10 * Real.sin (60 * Real.pi / 180), 10 * Real.cos (60 * Real.pi / 180))
      = true ∧
    visibleFlag ((0:ℝ), (0:ℝ)) 0
      (10 * Real.sin (60.001 * Real.pi / 180),
       10 * Real.cos (60.001 * Real.pi / 180)) = false := by
  refine ⟨visibleFlag_iff, ?_, ?_, ?_⟩
  · intro d wm o ho
    simp only [update_from_action] at ho ⊢
    exact updateVisList_mem _ _ _ o ho
  · exact (visibleFlag_ray 60 (by norm_num) (by norm_num)).mpr (by norm_num)
  · rw [Bool.eq_false_iff]
    intro h
    exact absurd ((visibleFlag_ray 60.001 (by norm_num) (by norm_num)).mp h)
      (by norm_num)

/-- C7 witness: the per-object flag equation applied to the cup after a
speech-only update. -/
theorem visibility_cone_witness :
    ({ cupAtHalf with
        visible := visibleFlag wmCup.robot_position wmCup.robot_orientation
          cupAtHalf.position } : SceneObject) ∈
      ((update_from_action "hello" wmCup).1).objects ∧
    ({ cupAtHalf with
        visible := visibleFlag wmCup.robot_position wmCup.robot_orientation
          cupAtHalf.position } : SceneObject).visible =
      visibleFlag ((update_from_action "hello" wmCup).1).robot_position
        ((update_from_action "hello" wmCup).1).robot_orientation
        ({ cupAtHalf with
            visible := visibleFlag wmCup.robot_position wmCup.robot_orientation
              cupAtHalf.position } : SceneObject).position := by
  have hpat : noMotionText "hello" := by
    refine ⟨by decide, by decide, by decide, ?_, ?_, ?_, ?_⟩ <;>
      (intro h; exact absurd h (by decide))
  have hmem : ({ cupAtHalf with
      visible := visibleFlag wmCup.robot_position wmCup.robot_orientation
        cupAtHalf.position } : SceneObject) ∈
      ((update_from_action "hello" wmCup).1).objects := by
    rw [noMotion_noop "hello" wmCup hpat]
    simp only [updateVisibilityList, wmCup, List.map]
    exact List.mem_singleton.mpr rfl
  exact ⟨hmem, visibility_cone.2.1 "hello" wmCup _ hmem⟩
